import Mathlib

/-!
Shallow embedding of the simulation core of `w0rmw00d.py` (the side-scrolling
arcade game), covering the player controller (`Player`), the falling actors
(`MatrixCharacter`, `Enemy`, `Pill`), and the round director (`Game.update`,
`Game.start_next_round`, `Game.spawn_characters`, `Game.spawn_pills`).

Modelling conventions, stated once here:

* Python floats are modelled as rationals (`ℚ`).  The float constants of the
  source (`0.9`, `0.85`, `0.95`, `0.5`) are taken as the exact rationals
  `9/10`, `17/20`, `19/20`, `1/2`; every claim treated below is insensitive
  to the `≤ 2⁻⁵³` relative error of the binary float representation of these
  constants.
* Python `int(x)` truncates toward zero; it is modelled by `pyInt`.
  Python `//` on nonnegative ints is ordinary `Nat` division.
* The square root appearing in `Game.update`'s knockback-direction
  normalisation (`(dx**2 + dy**2)**0.5`) is irrational in general, so the
  host float `sqrt` is modelled as an explicit oracle parameter
  `sq : ℚ → ℚ`; every theorem below is proved for an arbitrary oracle.
* Images and surfaces are not modelled.  Their only effect on the state
  machines is through rect sizes, so each entity carries its rect width and
  height as constant fields (`rectW`, `rectH`); all loaded player frames are
  scaled to a fixed target height and the placeholder frames are squares, so
  treating the size as constant per entity is faithful at the granularity of
  every claim below.  Frame-set identity is tracked by the tag type `ASet`;
  the list of frames a direction owns is asset-dependent, so its length
  enters as a parameter `dirLen : Dir → ℕ`.
* `random`-dependent spawning (`Game.spawn_characters`) is modelled by
  passing the drawn random values as an explicit input (`SpawnInput`) to the
  tick function, as usual for a deterministic embedding of randomized code.
* The collectible's drawn character glyph has no effect on any state machine
  and is omitted; its `point_value` (always 1 at the only construction site)
  is kept.
-/

namespace W0rm

/-- Python `int()` on a rational: truncation toward zero. -/
def pyInt (q : ℚ) : ℤ := if q < 0 then -(Int.floor (-q)) else Int.floor q

/-- Screen width constant, `SCREEN_WIDTH = 1000` (w0rmw00d.py line 16). -/
def screenW : ℚ := 1000

/-- Screen height constant, `SCREEN_HEIGHT = 700` (line 17). -/
def screenH : ℚ := 700

/-- Play-field (floor line) height, `MATRIX_HEIGHT = 500` (line 18). -/
def matrixH : ℚ := 500

/-- Game-state tags `STATE_MENU/PLAYING/GAME_OVER/ROUND_COMPLETE` (lines 28-31). -/
inductive GMode
  | menu
  | playing
  | gameOver
  | roundComplete
deriving DecidableEq, Repr

/-- Character-set modes, the keys of `get_random_string()` (lines 44-51). -/
inductive Mode
  | default
  | numbers
  | hex
  | binary
  | japanese
  | math
deriving DecidableEq, Repr

/-- Facing / movement directions (the string direction keys of the source). -/
inductive Dir
  | left
  | right
  | up
  | down
deriving DecidableEq, Repr

/-- Which wall the player is sliding on (`self.wall_dir`, `"left"`/`"right"`). -/
inductive WallSide
  | left
  | right
deriving DecidableEq, Repr

/-- Tag identifying which frame list `self.active_set` currently aliases.
`idleGlobal` is `self.idle_frames[:2]`, `moveSet d` is the movement set
selected by `set_active_direction_frames(d)`. -/
inductive ASet
  | idleGlobal
  | moveSet (d : Dir)
deriving DecidableEq, Repr

/-- Pill colours (`pill_type`, lines 972-974). -/
inductive PillType
  | red
  | blue
deriving DecidableEq, Repr

/-- Pressed-key snapshot consumed by `Player.handle_input` (A, D, W, S, SPACE). -/
structure Keys where
  keyA : Bool
  keyD : Bool
  keyW : Bool
  keyS : Bool
  keySpace : Bool
deriving DecidableEq, Repr

/-- Player state: the fields of `Player.__init__` (lines 395-463) that feed the
movement, jump, attack and animation state machines.  `pos` is the Vector3
`(x, y, z)`; `rectW`/`rectH` are the current sprite rect dimensions (constant
here, see the header note). -/
structure PState where
  posX : ℚ
  posY : ℚ
  posZ : ℚ
  vy : ℚ
  vx : ℚ
  sideView : Bool
  onGround : Bool
  onWall : Bool
  wallDir : Option WallSide
  jumpsLeft : ℕ
  prevUpPressed : Bool
  leftPressed : Bool
  rightPressed : Bool
  upPressed : Bool
  isJumping : Bool
  facing : Dir
  anyDirPressed : Bool
  activeSet : Option ASet
  activeSetLen : ℕ
  frameIndex : ℕ
  animationTimer : ℕ
  lastDirection : Option Dir
  isAttacking : Bool
  attackTimer : ℕ
  attackCooldown : ℕ
  rectW : ℕ
  rectH : ℕ
deriving DecidableEq, Repr

/-- Per-tick walk speed, `self.speed = 6` (line 420). -/
def pspeed : ℚ := 6

/-- Gravity per tick, `self.gravity = 1` (line 426). -/
def gravityC : ℚ := 1

/-- Jump impulse, `self.jump_strength = -16` (line 427). -/
def jumpStrength : ℚ := -16

/-- Mid-air jump budget, `self.max_jumps = 2` (line 439). -/
def maxJumps : ℕ := 2

/-- Depth-axis speed in 3D mode, `self.depth_speed = 3` (line 452). -/
def depthSpeed : ℚ := 3

/-- Attack animation length in ticks, `self.attack_duration = 15` (line 459). -/
def attackDuration : ℕ := 15

/-- Cooldown length in ticks, `self.attack_cooldown_duration = 20` (line 461). -/
def cooldownDuration : ℕ := 20

/-- Attack hitbox reach in pixels, `self.attack_range = 80` (line 462). -/
def attackRange : ℤ := 80

/-- Perfect-parry window in ticks, `self.attack_parry_window = 3` (line 463). -/
def parryWindow : ℕ := 3

/-- Wall-jump vertical impulse, `int(self.jump_strength * 0.9)` (line 631):
the Python `int()` truncation of `-16 * 0.9 = -14.4`, which is `-14`. -/
def wallJumpVy : ℚ := ((pyInt (jumpStrength * (9/10)) : ℤ) : ℚ)

/-- Embeds `Player.set_active_direction_frames` (lines 470-503).  Frame
contents are abstracted to the tag and the list length; `dirLen` gives the
asset-dependent length of each direction's movement-frame list.  For `right`
the source flips the `left` list, so the length is looked up under `left`. -/
def setActiveDirectionFrames (dirLen : Dir → ℕ) (d : Dir) (p : PState) : PState :=
  let lookup := if d = Dir.right then Dir.left else d
  let n := dirLen lookup
  let len := if n = 0 then 2 else if n = 1 then 2 else n
  let p1 := { p with activeSet := some (ASet.moveSet d), activeSetLen := len }
  if p1.lastDirection = some d then p1
  else { p1 with frameIndex := 0, animationTimer := 0, lastDirection := some d }

/-- The 3D depth-movement block of `Player.handle_input` (lines 586-595):
in 3D mode, W and S move the depth coordinate, clamped to `[0, 100]`. -/
def depthMove (e3 : Bool) (k : Keys) (p : PState) : PState :=
  if e3 = true then
    let pa := if k.keyW = true then { p with posZ := max 0 (p.posZ - depthSpeed) } else p
    if k.keyS = true then { pa with posZ := min 100 (pa.posZ + depthSpeed) } else pa
  else p

/-- The effective up-control of `Player.handle_input` (lines 574-582 and
593-595): W or SPACE in 2D mode, SPACE only in 3D mode. -/
def upOf (e3 : Bool) (k : Keys) : Bool :=
  if e3 then k.keySpace else (k.keyW || k.keySpace)

/-- Storing the pressed state on the player (lines 597-600). -/
def storePressed (leftP rightP upP : Bool) (p : PState) : PState :=
  { p with leftPressed := leftP, rightPressed := rightP, upPressed := upP }

/-- The left/right movement of `Player.handle_input` (lines 604-612): move by
the walk speed only while the half-width stays strictly inside the field. -/
def moveLR (leftP rightP : Bool) (p : PState) : PState :=
  let hw : ℚ := (p.rectW : ℚ) / 2
  let pa := if leftP = true ∧ p.posX - hw > 0 then { p with posX := p.posX - pspeed } else p
  if rightP = true ∧ pa.posX + hw < screenW then { pa with posX := pa.posX + pspeed } else pa

/-- The jump/fly block of `Player.handle_input` (lines 614-643): flight
thrust in `math` mode, otherwise the edge-triggered ground jump, wall jump
(reduced vertical impulse plus a horizontal impulse away from the wall) and
budgeted double jump. -/
def jumpOrFly (mode : Mode) (upP : Bool) (p : PState) : PState :=
  if mode = Mode.math then
    if upP = true then { p with vy := -6, onGround := false } else p
  else if upP = true ∧ p.prevUpPressed = false then
    if p.onGround = true then { p with vy := jumpStrength, onGround := false }
    else if p.onWall = true then
      let pc := { p with vy := wallJumpVy, onWall := false }
      match p.wallDir with
      | some WallSide.left => { pc with vx := 10 }
      | some WallSide.right => { pc with vx := -10 }
      | none => pc
    else if 0 < p.jumpsLeft then
      ({ p with vy := jumpStrength, jumpsLeft := p.jumpsLeft - 1 } : PState)
    else p
  else p

/-- The top-down fallback movement of `Player.handle_input` (lines 644-659);
`down_pressed` is always False so the down branch is dead. -/
def topDownMove (leftP rightP upP : Bool) (p : PState) : PState :=
  let pb := moveLR leftP rightP p
  let hh : ℚ := (pb.rectH : ℚ) / 2
  if upP = true ∧ pb.posY - hh > 0 then { pb with posY := pb.posY - pspeed } else pb

/-- The direction selection of `Player.handle_input` (lines 661-684), reading
the ground flag as updated by the jump block. -/
def chooseDir (sideView onGroundNow leftP rightP upP : Bool) : Dir :=
  if sideView = true then
    if leftP then Dir.left
    else if rightP then Dir.right
    else if onGroundNow = false || upP then Dir.up
    else Dir.down
  else
    if leftP then Dir.left
    else if rightP then Dir.right
    else if upP then Dir.up
    else Dir.down

/-- The frame-set selection of `Player.handle_input` (lines 697-720): while a
direction is held, face it and show its movement frames; when grounded with
no direction held, show the global idle pair.  (The padded `dir_set` computed
at lines 686-695 is never used afterwards and is omitted.) -/
def frameSelect (dirLen : Dir → ℕ) (leftP rightP upP : Bool) (p : PState) : PState :=
  let dir := chooseDir p.sideView p.onGround leftP rightP upP
  if (leftP || rightP || upP) = true then
    setActiveDirectionFrames dirLen dir { p with facing := dir }
  else if p.onGround = true then
    { p with activeSet := some ASet.idleGlobal, activeSetLen := 2,
             frameIndex := 0, animationTimer := 0 }
  else p

/-- Embeds `Player.handle_input` (lines 557-728) as the composition of the
blocks above, in source order.  `e3` is the global `enable_3d` flag, `mode`
the global `current_mode`.  The `moved` return value of the source is ignored
by its only caller and is dropped.  The loader guarantees `idle_frames`
always holds at least two frames, so the grounded idle branch
deterministically selects the global idle pair. -/
def handleInput (mode : Mode) (e3 : Bool) (dirLen : Dir → ℕ) (k : Keys) (p0 : PState) :
    PState :=
  let leftP := k.keyA
  let rightP := k.keyD
  let upP := upOf e3 k
  let p2 := storePressed leftP rightP upP (depthMove e3 k p0)
  let p3 := if p2.sideView = true then jumpOrFly mode upP (moveLR leftP rightP p2)
            else topDownMove leftP rightP upP p2
  let p4 := frameSelect dirLen leftP rightP upP p3
  { p4 with anyDirPressed := (leftP || rightP || upP), prevUpPressed := upP }

/-- Embeds `Player.start_attack` (lines 736-740). -/
def startAttack (p : PState) : PState :=
  { p with isAttacking := true, attackTimer := 0, frameIndex := 0 }

/-- Embeds `Player.handle_mouse_attack` (lines 730-734): a left-button press
starts an attack only when idle with zero cooldown. -/
def handleMouseAttack (mouse0 : Bool) (p : PState) : PState :=
  if mouse0 = true ∧ p.isAttacking = false ∧ p.attackCooldown = 0 then startAttack p else p

/-- Embeds the `active_set` existence guard at the top of `Player.update`
(lines 767-774); the loader guarantees the idle pair exists. -/
def ensureActiveSet (p : PState) : PState :=
  match p.activeSet with
  | none => { p with activeSet := some ASet.idleGlobal, activeSetLen := 2 }
  | some _ => p

/-- Embeds the cooldown decrement of `Player.update` (lines 776-778). -/
def tickCooldown (p : PState) : PState :=
  if p.attackCooldown > 0 then { p with attackCooldown := p.attackCooldown - 1 } else p

/-- Embeds the attacking branch of `Player.update` (lines 780-806): advance
the attack timer, and end the attack into cooldown once the duration is
reached.  The punch-frame image selection is display-only and is omitted. -/
def attackAdvance (p : PState) : PState :=
  let t := p.attackTimer + 1
  if t ≥ attackDuration then
    { p with attackTimer := 0, isAttacking := false, attackCooldown := cooldownDuration }
  else { p with attackTimer := t }

/-- Embeds the horizontal-impulse application of `Player.update` (lines
810-816): apply `vx` and decay it by `0.85`, or zero it below `0.5`. -/
def horizImpulse (p : PState) : PState :=
  if |p.vx| > 1/2 then { p with posX := p.posX + p.vx, vx := p.vx * (17/20) }
  else { p with vx := 0 }

/-- Embeds the horizontal clamping of `Player.update` (lines 817-824). -/
def clampX (p : PState) : PState :=
  let hw : ℚ := (p.rectW : ℚ) / 2
  if p.posX - hw < 0 then { p with posX := hw, vx := 0 }
  else if p.posX + hw > screenW then { p with posX := screenW - hw, vx := 0 }
  else p

/-- Embeds the wall-slide detection of `Player.update` (lines 826-838). -/
def wallSlide (p : PState) : PState :=
  let hw : ℚ := (p.rectW : ℚ) / 2
  let p1 := { p with onWall := false, wallDir := none }
  if p1.onGround = false then
    if p1.leftPressed = true ∧ p1.posX - hw ≤ 0 then
      { p1 with onWall := true, wallDir := some WallSide.left, vy := min p1.vy 3 }
    else if p1.rightPressed = true ∧ p1.posX + hw ≥ screenW then
      { p1 with onWall := true, wallDir := some WallSide.right, vy := min p1.vy 3 }
    else p1
  else p1

/-- Embeds gravity and vertical integration of `Player.update` (lines
840-845): gravity is skipped while flying (`math` mode with up held), and the
truncated vertical velocity is added to the y position. -/
def gravityIntegrate (mode : Mode) (p : PState) : PState :=
  let p1 := if mode = Mode.math ∧ p.upPressed = true then p
            else { p with vy := p.vy + gravityC }
  { p1 with posY := p1.posY + ((pyInt p1.vy : ℤ) : ℚ) }

/-- Embeds the ground-contact check of `Player.update` (lines 847-861). -/
def groundCheck (p : PState) : PState :=
  let hh : ℚ := (p.rectH : ℚ) / 2
  if p.posY + hh ≥ matrixH then
    { p with posY := matrixH - hh, vy := 0, onGround := true,
             jumpsLeft := maxJumps, isJumping := false }
  else
    let p1 := { p with onGround := false }
    if p1.onWall = false then { p1 with isJumping := true } else p1

/-- The side-view physics block of `Player.update` (lines 808-861), in source
order: impulse, clamp, wall slide, gravity + integration, ground check. -/
def physicsStep (mode : Mode) (p : PState) : PState :=
  groundCheck (gravityIntegrate mode (wallSlide (clampX (horizImpulse p))))

/-- Movement animation rate, `self.animation_speed = 8` (line 407). -/
def animationSpeed : ℕ := 8

/-- Idle animation rate, `self.idle_animation_speed = 3` (line 408). -/
def idleAnimationSpeed : ℕ := 3

/-- Embeds the animation advance at the tail of `Player.update` (lines
878-894).  Image blitting is omitted; the frame index and timers are kept. -/
def animStep (p : PState) : PState :=
  let threshold := if p.anyDirPressed = true then max 1 (60 / animationSpeed)
                   else max 1 (60 / idleAnimationSpeed)
  let t := p.animationTimer + 1
  if t ≥ threshold then
    { p with animationTimer := 0, frameIndex := (p.frameIndex + 1) % p.activeSetLen }
  else { p with animationTimer := t }

/-- Embeds `Player.update` (lines 766-897).  Note the source's early `return`
in the attacking branch (line 806): while attacking, the whole side-view
physics block and the animation advance are skipped.  The jump-frame branch
(lines 866-876) returns after physics, skipping only the animation advance. -/
def playerUpdate (mode : Mode) (p0 : PState) : PState :=
  let p := tickCooldown (ensureActiveSet p0)
  if p.isAttacking = true then attackAdvance p
  else
    let p1 := if p.sideView = true then physicsStep mode p else p
    if p1.isJumping = true ∧ p1.sideView = true then p1
    else animStep p1

/-- One player tick as driven by `Game.update` (lines 1330-1337):
`handle_input`, then `handle_mouse_attack`, then `Player.update`. -/
def playerTick (dirLen : Dir → ℕ) (mode : Mode) (e3 : Bool) (k : Keys) (mouse0 : Bool)
    (p : PState) : PState :=
  playerUpdate mode (handleMouseAttack mouse0 (handleInput mode e3 dirLen k p))

end W0rm

namespace W0rm

/-- Integer rectangle, mirroring `pygame.Rect` (left, top, width, height). -/
structure Rect where
  left : ℤ
  top : ℤ
  w : ℤ
  h : ℤ
deriving DecidableEq, Repr

/-- Rect overlap test, mirroring `pygame.Rect.colliderect` (strict
inequalities: touching edges do not collide). -/
def collide (a b : Rect) : Bool :=
  decide (a.left < b.left + b.w ∧ b.left < a.left + a.w ∧
          a.top < b.top + b.h ∧ b.top < a.top + a.h)

/-- The player's rect, positioned from the center as in `Player.sync_rect`
(line 530): pygame computes the left/top by integer halving of the size. -/
def playerRect (p : PState) : Rect :=
  { left := pyInt p.posX - ((p.rectW : ℤ) / 2),
    top := pyInt p.posY - ((p.rectH : ℤ) / 2),
    w := (p.rectW : ℤ), h := (p.rectH : ℤ) }

/-- Topleft-anchored rect of the falling actors (their `update` methods set
`rect.topleft = (int(pos.x), int(pos.y))`). -/
def topleftRect (x y : ℚ) (w h : ℕ) : Rect :=
  { left := pyInt x, top := pyInt y, w := (w : ℤ), h := (h : ℤ) }

/-- Collectible state, from `MatrixCharacter.__init__` (lines 903-912); the
glyph is display-only and omitted, `point_value` is kept. -/
structure CState where
  posX : ℚ
  posY : ℚ
  speed : ℚ
  pointValue : ℕ
  rectW : ℕ
  rectH : ℕ
deriving DecidableEq, Repr

/-- Embeds `MatrixCharacter.update` (lines 914-918): fall, and despawn
(`kill`, modelled as `none`) past the play-field height. -/
def charUpdate (c : CState) : Option CState :=
  let y := c.posY + c.speed
  if y > matrixH then none else some { c with posY := y }

/-- Enemy state, from `Enemy.__init__` (lines 924-937). -/
structure EState where
  posX : ℚ
  posY : ℚ
  speed : ℚ
  knockedBack : Bool
  knockbackVx : ℚ
  knockbackVy : ℚ
  wasHitByPlayer : Bool
  rectW : ℕ
  rectH : ℕ
deriving DecidableEq, Repr

/-- Knockback decay factor, `self.knockback_decay = 0.95` (line 936). -/
def knockbackDecay : ℚ := 19/20

/-- Embeds `Enemy.update` (lines 939-959): while knocked back, drift with the
knockback velocity, decay it geometrically, and despawn once outside the
extended screen bounds; otherwise fall normally and despawn below the
play-field. -/
def enemyUpdate (e : EState) : Option EState :=
  if e.knockedBack = true then
    let x := e.posX + e.knockbackVx
    let y := e.posY + e.knockbackVy
    let e1 := { e with posX := x, posY := y,
                       knockbackVx := e.knockbackVx * knockbackDecay,
                       knockbackVy := e.knockbackVy * knockbackDecay }
    if x < -50 ∨ x > screenW + 50 ∨ y < -50 ∨ y > screenH + 50 then none
    else some e1
  else
    let y := e.posY + e.speed
    if y > matrixH then none else some { e with posY := y }

/-- Embeds `Enemy.apply_knockback` (lines 961-966): mark as knocked back and
player-destroyed and set the velocity to direction times force. -/
def applyKnockback (dx dy force : ℚ) (e : EState) : EState :=
  { e with knockedBack := true, wasHitByPlayer := true,
           knockbackVx := dx * force, knockbackVy := dy * force }

/-- Pill state, from `Pill.__init__` (lines 972-995); the drawn capsule is
30x15 pixels (lines 978-979). -/
structure PillState where
  posX : ℚ
  posY : ℚ
  ptype : PillType
  speed : ℚ
  rectW : ℕ := 30
  rectH : ℕ := 15
deriving DecidableEq, Repr

/-- Embeds `Pill.update` (lines 997-1001). -/
def pillUpdate (pl : PillState) : Option PillState :=
  let y := pl.posY + pl.speed
  if y > matrixH then none else some { pl with posY := y }

/-- Round-director state: the fields of `Game.__init__` (lines 1151-1191)
used by `Game.update`, together with the process-wide globals it reads and
writes (`drop_speed`, `current_mode`, `enable_3d`, lines 33-41). -/
structure Game where
  state : GMode
  player : PState
  characters : List CState
  enemies : List EState
  pills : List PillState
  score : ℕ
  keysCollected : ℕ
  health : ℤ
  spawnTimer : ℕ
  gameTime : ℕ
  currentRound : ℕ
  pillOffered : Bool
  enable3d : Bool
  currentMode : Mode
  dropSpeed : ℚ
deriving DecidableEq, Repr

/-- The ambient difficulty ramp applied every 300th tick by `Game.update`
(lines 1446-1450): `drop_speed = min(drop_speed + 0.5, 10)`. -/
def rampSpeed (v : ℚ) : ℚ := min (v + 1/2) 10

/-- Embeds `Game.start_next_round` (lines 1242-1254): next round keeps the
score, restores health, resets the spawn timer, raises `drop_speed` by 1 and
clears all entity pools. -/
def startNextRound (g : Game) : Game :=
  { g with currentRound := g.currentRound + 1, state := GMode.playing,
           health := 100, spawnTimer := 0, dropSpeed := g.dropSpeed + 1,
           characters := [], enemies := [], pills := [] }

/-- Score awarded per player-destroyed enemy removal, computed by the
before/after diff of `Game.update` (lines 1333-1344): 10 points for each
enemy whose own update removed it while its `was_hit_by_player` flag is set. -/
def enemyAward (es : List EState) : ℕ :=
  10 * (es.countP (fun e => (enemyUpdate e).isNone && e.wasHitByPlayer))

/-- Random draws of one `Game.spawn_characters` call: positions of the 1-3
collectibles (with their rendered glyph sizes) and the optional enemy. -/
structure SpawnChar where
  x : ℚ
  y : ℚ
  w : ℕ
  h : ℕ
deriving DecidableEq, Repr

/-- Random input to one tick: the collectible draws and the optional enemy
draw consumed by `Game.spawn_characters` (lines 1456-1476). -/
structure SpawnInput where
  chars : List SpawnChar
  enemy : Option SpawnChar
deriving DecidableEq, Repr

/-- Embeds `Game.spawn_characters` (lines 1456-1476): the new collectibles
take the current global `drop_speed`, a new enemy takes `drop_speed + 1`. -/
def spawnCharacters (inp : SpawnInput) (g : Game) : Game :=
  let newChars := inp.chars.map (fun c =>
    ({ posX := c.x, posY := c.y, speed := g.dropSpeed, pointValue := 1,
       rectW := c.w, rectH := c.h } : CState))
  let g1 := { g with characters := g.characters ++ newChars }
  match inp.enemy with
  | some c =>
      { g1 with enemies := g1.enemies ++
          [{ posX := c.x, posY := c.y, speed := g.dropSpeed + 1,
             knockedBack := false, knockbackVx := 0, knockbackVy := 0,
             wasHitByPlayer := false, rectW := c.w, rectH := c.h }] }
  | none => g1

/-- Embeds `Game.spawn_pills` (lines 1478-1494): one red pill at a third of
the field and one blue pill at two thirds, both slightly slower than the
global drop speed. -/
def spawnPills (g : Game) : Game :=
  { g with pills := g.pills ++
      [{ posX := 333, posY := -50, ptype := PillType.red, speed := g.dropSpeed - 1/2 },
       { posX := 666, posY := -50, ptype := PillType.blue, speed := g.dropSpeed - 1/2 }] }

/-- The collectible-collision pass of `Game.update` (lines 1370-1376), as a
fold: colliding collectibles are removed, their point value added to the
score and the keys-collected counter incremented. -/
def collectStep (p : PState) (acc : List CState × ℕ × ℕ) (c : CState) :
    List CState × ℕ × ℕ :=
  if collide (playerRect p) (topleftRect c.posX c.posY c.rectW c.rectH) then
    (acc.1, acc.2.1 + c.pointValue, acc.2.2 + 1)
  else (acc.1 ++ [c], acc.2.1, acc.2.2)

/-- The body of the enemy-contact loop of `Game.update` (lines 1378-1409) for
one enemy: on overlap with the player's bounds, classify the contact as a
perfect parry exactly when the player is attacking within the parry window
(knockback force 40, no health change); otherwise knock back with force 30,
subtract 10 health, and flip the state to game over once health is depleted.
`sq` is the float square-root oracle used to normalise the direction. -/
def enemyContact (sq : ℚ → ℚ) (p : PState) (e : EState) (health : ℤ) (st : GMode) :
    EState × ℤ × GMode :=
  if collide (playerRect p) (topleftRect e.posX e.posY e.rectW e.rectH) then
    let dx := e.posX - p.posX
    let dy := e.posY - p.posY
    let dist := max 1 (sq (dx ^ 2 + dy ^ 2))
    let kx := dx / dist
    let ky := dy / dist
    if p.isAttacking = true ∧ p.attackTimer ≤ parryWindow then
      (applyKnockback kx ky 40 e, health, st)
    else
      let h2 := health - 10
      (applyKnockback kx ky 30 e, h2, if h2 ≤ 0 then GMode.gameOver else st)
  else (e, health, st)

/-- The enemy-contact loop folded over the enemy list in order. -/
def contactFold (sq : ℚ → ℚ) (p : PState) (acc : List EState × ℤ × GMode)
    (e : EState) : List EState × ℤ × GMode :=
  let r := enemyContact sq p e acc.2.1 acc.2.2
  (acc.1 ++ [r.1], r.2.1, r.2.2)

/-- Embeds `Player.get_attack_hitbox` (lines 742-764) for an attacking
player: a rectangle of reach `attack_range` offset from the player's rect in
the facing direction, with the source's `hasattr(last_direction)` fallback. -/
def attackHitbox (p : PState) : Rect :=
  let r := playerRect p
  if p.facing = Dir.right ∨ (p.lastDirection = none ∧ p.rightPressed = true) then
    { left := r.left + r.w, top := r.top, w := attackRange, h := r.h }
  else if p.facing = Dir.left ∨ p.leftPressed = true then
    { left := r.left - attackRange, top := r.top, w := attackRange, h := r.h }
  else if p.facing = Dir.up then
    { left := r.left, top := r.top - attackRange, w := r.h, h := attackRange }
  else
    { left := r.left, top := r.top + r.h, w := r.h, h := attackRange }

/-- The knockback direction of the ranged-attack pass (lines 1418-1426). -/
def rangedDir (p : PState) : ℚ × ℚ :=
  if p.facing = Dir.right ∨ p.rightPressed = true then (1, 0)
  else if p.facing = Dir.left ∨ p.leftPressed = true then (-1, 0)
  else if p.facing = Dir.up then (0, -1)
  else (0, 1)

/-- The ranged-attack pass of `Game.update` (lines 1411-1428): enemies inside
the attack hitbox but not touching the player receive knockback (force 35) in
the facing direction. -/
def rangedPhase (p : PState) (es : List EState) : List EState :=
  let hb := attackHitbox p
  es.map (fun e =>
    if collide hb (topleftRect e.posX e.posY e.rectW e.rectH)
        && !(collide (playerRect p) (topleftRect e.posX e.posY e.rectW e.rectH)) then
      applyKnockback (rangedDir p).1 (rangedDir p).2 35 e
    else e)

/-- Effect of collecting one pill (lines 1435-1442): red enables the global
3D flag, blue disables it and resets the player's depth to zero. -/
def pillEffect (acc : Bool × ℚ) (pl : PillState) : Bool × ℚ :=
  match pl.ptype with
  | PillType.red => (true, acc.2)
  | PillType.blue => (false, 0)

/-- The sprite-update and award prefix of `Game.update` (lines 1330-1344):
player tick, all sprite updates, and the before/after enemy diff awarding 10
points per player-destroyed enemy removal. -/
def updateWorld (dirLen : Dir → ℕ) (k : Keys) (mouse0 : Bool) (g : Game) : Game :=
  { g with player := playerTick dirLen g.currentMode g.enable3d k mouse0 g.player,
           characters := g.characters.filterMap charUpdate,
           enemies := g.enemies.filterMap enemyUpdate,
           pills := g.pills.filterMap pillUpdate,
           score := g.score + enemyAward g.enemies }

/-- The pill-offer gate of `Game.update` (lines 1351-1362): both branches
spawn the two pills and set the offered flag, so the round check collapses
to the shared guard. -/
def pillOfferPhase (g : Game) : Game :=
  if g.pillOffered = false ∧ 999 ≤ g.score then spawnPills { g with pillOffered := true }
  else g

/-- The spawn timing of `Game.update` (lines 1364-1368). -/
def spawnPhase (inp : SpawnInput) (g : Game) : Game :=
  let g3 := { g with spawnTimer := g.spawnTimer + 1 }
  if 20 < g3.spawnTimer then { spawnCharacters inp g3 with spawnTimer := 0 } else g3

/-- The collectible-pickup pass of `Game.update` (lines 1370-1376). -/
def collectPhase (g : Game) : Game :=
  let col := g.characters.foldl (collectStep g.player) ([], g.score, g.keysCollected)
  { g with characters := col.1, score := col.2.1, keysCollected := col.2.2 }

/-- The enemy-contact pass of `Game.update` (lines 1378-1409). -/
def combatPhase (sq : ℚ → ℚ) (g : Game) : Game :=
  let ec := g.enemies.foldl (contactFold sq g.player) ([], g.health, g.state)
  { g with enemies := ec.1, health := ec.2.1, state := ec.2.2 }

/-- The ranged-attack pass of `Game.update` (lines 1411-1428). -/
def rangedAttackPhase (g : Game) : Game :=
  if g.player.isAttacking = true then { g with enemies := rangedPhase g.player g.enemies }
  else g

/-- The pill-pickup pass of `Game.update` (lines 1430-1444): each pill
colliding with the player applies its effect in order, after which all pills
are cleared atomically. -/
def pillPickupPhase (g : Game) : Game :=
  let hitPills := g.pills.filter
    (fun pl => collide (playerRect g.player) (topleftRect pl.posX pl.posY pl.rectW pl.rectH))
  let eff := hitPills.foldl pillEffect (g.enable3d, g.player.posZ)
  { g with enable3d := eff.1,
           player := { g.player with posZ := eff.2 },
           pills := if hitPills.isEmpty then g.pills else [] }

/-- The ambient difficulty ramp of `Game.update` (lines 1446-1450): every
300th tick the drop speed becomes `min(speed + 0.5, 10)`. -/
def difficultyPhase (g : Game) : Game :=
  let gt := g.gameTime + 1
  { g with gameTime := gt,
           dropSpeed := if gt % 300 = 0 then rampSpeed g.dropSpeed else g.dropSpeed }

/-- The final health check of `Game.update` (lines 1452-1454). -/
def healthCheckPhase (g : Game) : Game :=
  if g.health ≤ 0 then { g with state := GMode.gameOver } else g

/-- Embeds `Game.update` (lines 1322-1454) for one tick, in source order:
nothing happens outside the Playing state; then sprite updates with the
destroyed-enemy award, the round-complete early return at score 200, the
(unreachable, see C2) pill offer at score 999, spawn timing, collectible
pickups, the enemy-contact loop, the ranged-attack pass, pill pickups, the
ambient difficulty ramp, and the final health check.  `sq` is the square-root
oracle, `dirLen` the frame-set length table, `inp` this tick's random spawn
draws. -/
def gameUpdate (sq : ℚ → ℚ) (dirLen : Dir → ℕ) (k : Keys) (mouse0 : Bool)
    (inp : SpawnInput) (g : Game) : Game :=
  if g.state ≠ GMode.playing then g
  else
    let g1 : Game := updateWorld dirLen k mouse0 g
    if 200 ≤ g1.score then { g1 with state := GMode.roundComplete }
    else
      healthCheckPhase (difficultyPhase (pillPickupPhase (rangedAttackPhase
        (combatPhase sq (collectPhase (spawnPhase inp (pillOfferPhase g1)))))))

end W0rm

namespace W0rm

/-- Squared magnitude of an enemy's knockback velocity.  Comparisons of
knockback magnitudes are stated on squares to stay inside `ℚ`; a magnitude
strictly decreases exactly when its square does. -/
def kmagSq (e : EState) : ℚ := e.knockbackVx ^ 2 + e.knockbackVy ^ 2

/-- The attack-subsystem fields of the player, bundled for preservation
lemmas: attacking flag, attack timer, cooldown counter. -/
def attackFields (p : PState) : Bool × ℕ × ℕ :=
  (p.isAttacking, p.attackTimer, p.attackCooldown)

/-- Attack-state phases of the spec's `{Idle, Attacking, Cooldown}` machine. -/
inductive APhase
  | idle
  | attacking
  | cooldown
deriving DecidableEq, Repr

/-- The phase the player's attack fields encode: attacking, else cooling
down while the counter is positive, else idle. -/
def phaseOf (p : PState) : APhase :=
  if p.isAttacking = true then APhase.attacking
  else if p.attackCooldown = 0 then APhase.idle
  else APhase.cooldown

/-- The transitions allowed by the Idle to Attacking to Cooldown to Idle
cycle: stay in place, or advance one arc of the cycle. -/
def phaseStep : APhase → APhase → Prop
  | APhase.idle, APhase.idle => True
  | APhase.idle, APhase.attacking => True
  | APhase.attacking, APhase.attacking => True
  | APhase.attacking, APhase.cooldown => True
  | APhase.cooldown, APhase.cooldown => True
  | APhase.cooldown, APhase.idle => True
  | _, _ => False

/-- Invariant of the attack subsystem: while attacking the cooldown is zero
and the timer is below the attack duration; while not attacking the timer is
zero; the cooldown never exceeds its full length. -/
def AttackInv (p : PState) : Prop :=
  (p.isAttacking = true → p.attackCooldown = 0 ∧ p.attackTimer + 1 ≤ attackDuration) ∧
  (p.isAttacking = false → p.attackTimer = 0) ∧
  p.attackCooldown ≤ cooldownDuration

/-- The action of one full player tick on the attack fields alone, read off
the source: `handle_mouse_attack` may start an attack (only when idle with
zero cooldown), `Player.update` then decrements the cooldown and advances a
running attack, ending it into cooldown at the attack duration.  The theorem
`playerTick_attackFields` proves that `playerTick` acts on the attack fields
exactly like this function. -/
def attackStep (m : Bool) (a : Bool × ℕ × ℕ) : Bool × ℕ × ℕ :=
  let a1 := if m = true ∧ a.1 = false ∧ a.2.2 = 0 then (true, 0, a.2.2) else a
  let a2 : Bool × ℕ × ℕ := (a1.1, a1.2.1, a1.2.2 - 1)
  if a2.1 = true then
    if a2.2.1 + 1 ≥ attackDuration then (false, 0, cooldownDuration)
    else (a2.1, a2.2.1 + 1, a2.2.2)
  else a2

/-- Positional invariant of the player (claim C4, amended): side view; the
horizontal center within the field bounds relaxed by one walk step (the
attacking early return can leave at most one unclamped step, see C4); and
while grounded the lower edge is exactly on the floor line. -/
def PlayerInv (p : PState) : Prop :=
  p.sideView = true ∧
  ((p.rectW : ℚ) / 2 - pspeed < p.posX ∧ p.posX < screenW - (p.rectW : ℚ) / 2 + pspeed) ∧
  (p.onGround = true → p.posY = matrixH - (p.rectH : ℚ) / 2)

/-- A grounded, idle player standing at the center of the field with the
48x48 sprite rect of the placeholder frames. -/
def pBase : PState :=
  { posX := 500, posY := 476, posZ := 0, vy := 0, vx := 0,
    sideView := true, onGround := true, onWall := false, wallDir := none,
    jumpsLeft := 2, prevUpPressed := false, leftPressed := false, rightPressed := false,
    upPressed := false, isJumping := false, facing := Dir.down, anyDirPressed := false,
    activeSet := some ASet.idleGlobal, activeSetLen := 2, frameIndex := 0,
    animationTimer := 0, lastDirection := none, isAttacking := false, attackTimer := 0,
    attackCooldown := 0, rectW := 48, rectH := 48 }

/-- No key pressed. -/
def keysNone : Keys :=
  { keyA := false, keyD := false, keyW := false, keyS := false, keySpace := false }

/-- Only A (move left) pressed. -/
def keysLeft : Keys := { keysNone with keyA := true }

/-- Only W (jump) pressed. -/
def keysUp : Keys := { keysNone with keyW := true }

/-- A frame-set length table with four frames per direction. -/
def dirLenFour : Dir → ℕ := fun _ => 4

/-- A square-root oracle; the concrete value is irrelevant to every claim. -/
def sqOne : ℚ → ℚ := fun _ => 1

/-- Mid-air player two ticks into an attack, with nonzero velocities. -/
def pAttacking : PState :=
  { pBase with isAttacking := true, attackTimer := 1, vy := 5, posY := 400, vx := 3,
               onGround := false }

/-- The same mid-air player with the attack flag cleared. -/
def pCoasting : PState := { pAttacking with isAttacking := false, attackTimer := 0 }

/-- An attacking player standing 2 pixels away from the left clamp bound
(half-width 24); reachable by walking left from the start position. -/
def pEdge : PState := { pBase with posX := 26, isAttacking := true, attackTimer := 1 }

/-- An airborne player holding onto the left wall. -/
def pWall : PState :=
  { pBase with posX := 24, onGround := false, onWall := true,
               wallDir := some WallSide.left, vy := 3 }

/-- An attacking player at the parry-window boundary (timer equal to the
window). -/
def pParry3 : PState := { pBase with isAttacking := true, attackTimer := 3 }

/-- An attacking player one tick past the parry window. -/
def pMiss4 : PState := { pBase with isAttacking := true, attackTimer := 4 }

/-- A fresh Playing session state, as `Game.start_game` leaves it with the
initial global drop speed. -/
def gBase : Game :=
  { state := GMode.playing, player := pBase, characters := [], enemies := [], pills := [],
    score := 0, keysCollected := 0, health := 100, spawnTimer := 0, gameTime := 0,
    currentRound := 1, pillOffered := false, enable3d := false,
    currentMode := Mode.default, dropSpeed := 2 }

/-- A tick with no random spawn draws. -/
def noSpawn : SpawnInput := { chars := [], enemy := none }

/-- A falling enemy positioned to overlap the player's rect after this
tick's update. -/
def eTouch : EState :=
  { posX := 490, posY := 460, speed := 3, knockedBack := false, knockbackVx := 0,
    knockbackVy := 0, wasHitByPlayer := false, rectW := 24, rectH := 24 }

/-- An enemy whose position coincides exactly with the player's center while
its rect still overlaps the player's. -/
def eCoincident : EState := { eTouch with posX := 500, posY := 476 }

/-- A knocked-back enemy drifting right. -/
def eKnock : EState :=
  { posX := 500, posY := 300, speed := 3, knockedBack := true, knockbackVx := 4,
    knockbackVy := 0, wasHitByPlayer := true, rectW := 24, rectH := 24 }

/-- The state of `eKnock` after one `Enemy.update`: moved by the knockback
velocity, velocity decayed by `0.95`. -/
def eKnockNext : EState := { eKnock with posX := 504, knockbackVx := 19/5 }

/-- A falling collectible positioned to overlap the player's rect after this
tick's update. -/
def cTouch : CState :=
  { posX := 490, posY := 470, speed := 2, pointValue := 1, rectW := 12, rectH := 20 }

/-- A Playing state at 10 health with one enemy about to touch the player. -/
def gLowHealth : Game := { gBase with health := 10, enemies := [eTouch] }

/-- A Playing state at 199 points with one collectible about to be picked
up. -/
def gAlmostDone : Game := { gBase with score := 199, characters := [cTouch] }

/-- A Playing state whose drop speed was pushed above the ramp cap by round
transitions, one tick before a multiple-of-300 tick. -/
def gAboveCap : Game := { gBase with gameTime := 299, dropSpeed := 11 }

/-- A Playing state whose drop speed sits exactly at the ramp cap. -/
def gAtCap : Game := { gBase with dropSpeed := 10 }

/-- The unit direction from player to enemy used by the contact resolution
(lines 1382-1388), with the same guard against a zero distance. -/
def contactDir (sq : ℚ → ℚ) (p : PState) (e : EState) : ℚ × ℚ :=
  let dx := e.posX - p.posX
  let dy := e.posY - p.posY
  let dist := max 1 (sq (dx ^ 2 + dy ^ 2))
  (dx / dist, dy / dist)

/-- A knocked-back, player-hit enemy far off screen, removed by its next
update. -/
def eGone : EState := { eKnock with posX := 2000 }

/-- A Playing state at 190 points whose only enemy is destroyed this tick,
so the enemy award alone reaches the 200 threshold. -/
def gAwardDone : Game := { gBase with score := 190, enemies := [eGone] }

end W0rm

namespace W0rm

/-- Frame lemma: `depthMove` touches only the depth coordinate. -/
theorem depthMove_eq (e3 : Bool) (k : Keys) (p : PState) :
    depthMove e3 k p = { p with posZ := (depthMove e3 k p).posZ } := by
  simp only [depthMove]; split_ifs <;> rfl

/-- Frame lemma: `moveLR` touches only the horizontal position. -/
theorem moveLR_eq (l r : Bool) (p : PState) :
    moveLR l r p = { p with posX := (moveLR l r p).posX } := by
  simp only [moveLR]; split_ifs <;> rfl

/-- Frame lemma: `jumpOrFly` touches only the velocities, the ground and
wall flags and the jump budget. -/
theorem jumpOrFly_eq (mode : Mode) (u : Bool) (p : PState) :
    jumpOrFly mode u p =
      { p with vy := (jumpOrFly mode u p).vy, vx := (jumpOrFly mode u p).vx,
               onGround := (jumpOrFly mode u p).onGround,
               onWall := (jumpOrFly mode u p).onWall,
               jumpsLeft := (jumpOrFly mode u p).jumpsLeft } := by
  simp only [jumpOrFly]
  split_ifs <;> try rfl
  cases h : p.wallDir with
  | none => simp [h]
  | some side => cases side <;> simp [h]

/-- Frame lemma: `topDownMove` touches only the position. -/
theorem topDownMove_eq (l r u : Bool) (p : PState) :
    topDownMove l r u p =
      { p with posX := (topDownMove l r u p).posX,
               posY := (topDownMove l r u p).posY } := by
  simp only [topDownMove, moveLR]; split_ifs <;> rfl

/-- Frame lemma: `setActiveDirectionFrames` touches only the animation
bookkeeping. -/
theorem setADF_eq (dirLen : Dir → ℕ) (d : Dir) (p : PState) :
    setActiveDirectionFrames dirLen d p =
      { p with activeSet := (setActiveDirectionFrames dirLen d p).activeSet,
               activeSetLen := (setActiveDirectionFrames dirLen d p).activeSetLen,
               frameIndex := (setActiveDirectionFrames dirLen d p).frameIndex,
               animationTimer := (setActiveDirectionFrames dirLen d p).animationTimer,
               lastDirection := (setActiveDirectionFrames dirLen d p).lastDirection } := by
  simp only [setActiveDirectionFrames]; split_ifs <;> rfl

/-- Frame lemma: `frameSelect` touches only the facing and the animation
bookkeeping. -/
theorem frameSelect_eq (dirLen : Dir → ℕ) (l r u : Bool) (p : PState) :
    frameSelect dirLen l r u p =
      { p with facing := (frameSelect dirLen l r u p).facing,
               activeSet := (frameSelect dirLen l r u p).activeSet,
               activeSetLen := (frameSelect dirLen l r u p).activeSetLen,
               frameIndex := (frameSelect dirLen l r u p).frameIndex,
               animationTimer := (frameSelect dirLen l r u p).animationTimer,
               lastDirection := (frameSelect dirLen l r u p).lastDirection } := by
  simp only [frameSelect, setActiveDirectionFrames]; split_ifs <;> rfl

/-- Frame lemma: `horizImpulse` touches only the horizontal position and
impulse velocity. -/
theorem horizImpulse_eq (p : PState) :
    horizImpulse p =
      { p with posX := (horizImpulse p).posX, vx := (horizImpulse p).vx } := by
  simp only [horizImpulse]; split_ifs <;> rfl

/-- Frame lemma: `clampX` touches only the horizontal position and impulse
velocity. -/
theorem clampX_eq (p : PState) :
    clampX p = { p with posX := (clampX p).posX, vx := (clampX p).vx } := by
  simp only [clampX]; split_ifs <;> rfl

/-- Frame lemma: `wallSlide` touches only the wall flags and the vertical
velocity. -/
theorem wallSlide_eq (p : PState) :
    wallSlide p =
      { p with onWall := (wallSlide p).onWall, wallDir := (wallSlide p).wallDir,
               vy := (wallSlide p).vy } := by
  simp only [wallSlide]; split_ifs <;> rfl

/-- Frame lemma: `gravityIntegrate` touches only the vertical velocity and
position. -/
theorem gravityIntegrate_eq (mode : Mode) (p : PState) :
    gravityIntegrate mode p =
      { p with vy := (gravityIntegrate mode p).vy,
               posY := (gravityIntegrate mode p).posY } := by
  simp only [gravityIntegrate]; split_ifs <;> rfl

/-- Frame lemma: `groundCheck` touches only the vertical state, the jump
budget and the jump-display flag. -/
theorem groundCheck_eq (p : PState) :
    groundCheck p =
      { p with posY := (groundCheck p).posY, vy := (groundCheck p).vy,
               onGround := (groundCheck p).onGround,
               jumpsLeft := (groundCheck p).jumpsLeft,
               isJumping := (groundCheck p).isJumping } := by
  simp only [groundCheck]; split_ifs <;> rfl

/-- Frame lemma: `animStep` touches only the animation timer and frame
index. -/
theorem animStep_eq (p : PState) :
    animStep p =
      { p with animationTimer := (animStep p).animationTimer,
               frameIndex := (animStep p).frameIndex } := by
  simp only [animStep]; split_ifs <;> rfl

/-- Frame lemma: `ensureActiveSet` touches only the active-set fields. -/
theorem ensureActiveSet_eq (p : PState) :
    ensureActiveSet p =
      { p with activeSet := (ensureActiveSet p).activeSet,
               activeSetLen := (ensureActiveSet p).activeSetLen } := by
  unfold ensureActiveSet
  cases p.activeSet <;> rfl

/-- Frame lemma: `tickCooldown` touches only the cooldown counter. -/
theorem tickCooldown_eq (p : PState) :
    tickCooldown p = { p with attackCooldown := (tickCooldown p).attackCooldown } := by
  simp only [tickCooldown]; split_ifs <;> rfl

/-- Frame lemma: `attackAdvance` touches only the attack fields. -/
theorem attackAdvance_eq (p : PState) :
    attackAdvance p =
      { p with attackTimer := (attackAdvance p).attackTimer,
               isAttacking := (attackAdvance p).isAttacking,
               attackCooldown := (attackAdvance p).attackCooldown } := by
  simp only [attackAdvance]; split_ifs <;> rfl

/-- Frame lemma: `handleMouseAttack` touches only the attack flag, the
attack timer and the frame index. -/
theorem handleMouseAttack_eq (m : Bool) (p : PState) :
    handleMouseAttack m p =
      { p with isAttacking := (handleMouseAttack m p).isAttacking,
               attackTimer := (handleMouseAttack m p).attackTimer,
               frameIndex := (handleMouseAttack m p).frameIndex } := by
  simp only [handleMouseAttack, startAttack]; split_ifs <;> rfl

end W0rm

namespace W0rm

/-- Component extraction for equalities of bundled attack fields. -/
theorem attackFields_inj {p q : PState} (h : attackFields p = attackFields q) :
    p.isAttacking = q.isAttacking ∧ p.attackTimer = q.attackTimer ∧
    p.attackCooldown = q.attackCooldown := by
  simpa [attackFields, Prod.ext_iff] using h

/-- Component extraction for a bundled attack-fields value. -/
theorem attackFields_fields {p : PState} {a : Bool} {t c : ℕ}
    (h : attackFields p = (a, t, c)) :
    p.isAttacking = a ∧ p.attackTimer = t ∧ p.attackCooldown = c := by
  simpa [attackFields, Prod.ext_iff] using h

/-- The depth-movement block does not touch the attack fields. -/
theorem depthMove_attackFields (e3 : Bool) (k : Keys) (p : PState) :
    attackFields (depthMove e3 k p) = attackFields p := by
  simp only [depthMove]; split_ifs <;> rfl

/-- Storing the pressed state does not touch the attack fields. -/
theorem storePressed_attackFields (l r u : Bool) (p : PState) :
    attackFields (storePressed l r u p) = attackFields p := rfl

/-- Horizontal movement does not touch the attack fields. -/
theorem moveLR_attackFields (l r : Bool) (p : PState) :
    attackFields (moveLR l r p) = attackFields p := by
  simp only [moveLR]; split_ifs <;> rfl

/-- The jump/fly block does not touch the attack fields. -/
theorem jumpOrFly_attackFields (mode : Mode) (u : Bool) (p : PState) :
    attackFields (jumpOrFly mode u p) = attackFields p := by
  simp only [jumpOrFly]
  split_ifs <;> try rfl
  cases h : p.wallDir with
  | none => rfl
  | some side => cases side <;> rfl

/-- Top-down movement does not touch the attack fields. -/
theorem topDownMove_attackFields (l r u : Bool) (p : PState) :
    attackFields (topDownMove l r u p) = attackFields p := by
  simp only [topDownMove, moveLR]; split_ifs <;> rfl

/-- Frame selection does not touch the attack fields. -/
theorem frameSelect_attackFields (dirLen : Dir → ℕ) (l r u : Bool) (p : PState) :
    attackFields (frameSelect dirLen l r u p) = attackFields p := by
  simp only [frameSelect, setActiveDirectionFrames]; split_ifs <;> rfl

/-- `Player.handle_input` never touches the attack fields. -/
theorem handleInput_attackFields (mode : Mode) (e3 : Bool) (dirLen : Dir → ℕ) (k : Keys)
    (p : PState) : attackFields (handleInput mode e3 dirLen k p) = attackFields p := by
  show attackFields (frameSelect dirLen k.keyA k.keyD (upOf e3 k) _) = attackFields p
  rw [frameSelect_attackFields]
  split
  · rw [jumpOrFly_attackFields, moveLR_attackFields, storePressed_attackFields,
        depthMove_attackFields]
  · rw [topDownMove_attackFields, storePressed_attackFields, depthMove_attackFields]

/-- The horizontal-impulse step does not touch the attack fields. -/
theorem horizImpulse_attackFields (p : PState) :
    attackFields (horizImpulse p) = attackFields p := by
  simp only [horizImpulse]; split_ifs <;> rfl

/-- The horizontal clamp does not touch the attack fields. -/
theorem clampX_attackFields (p : PState) :
    attackFields (clampX p) = attackFields p := by
  simp only [clampX]; split_ifs <;> rfl

/-- The wall-slide step does not touch the attack fields. -/
theorem wallSlide_attackFields (p : PState) :
    attackFields (wallSlide p) = attackFields p := by
  simp only [wallSlide]; split_ifs <;> rfl

/-- Gravity and integration do not touch the attack fields. -/
theorem gravityIntegrate_attackFields (mode : Mode) (p : PState) :
    attackFields (gravityIntegrate mode p) = attackFields p := by
  simp only [gravityIntegrate]; split_ifs <;> rfl

/-- The ground check does not touch the attack fields. -/
theorem groundCheck_attackFields (p : PState) :
    attackFields (groundCheck p) = attackFields p := by
  simp only [groundCheck]; split_ifs <;> rfl

/-- The physics block does not touch the attack fields. -/
theorem physicsStep_attackFields (mode : Mode) (p : PState) :
    attackFields (physicsStep mode p) = attackFields p := by
  unfold physicsStep
  rw [groundCheck_attackFields, gravityIntegrate_attackFields, wallSlide_attackFields,
      clampX_attackFields, horizImpulse_attackFields]

/-- The animation advance does not touch the attack fields. -/
theorem animStep_attackFields (p : PState) :
    attackFields (animStep p) = attackFields p := by
  simp only [animStep]; split_ifs <;> rfl

/-- The active-set guard does not touch the attack fields. -/
theorem ensureActiveSet_attackFields (p : PState) :
    attackFields (ensureActiveSet p) = attackFields p := by
  unfold ensureActiveSet; cases p.activeSet <;> rfl

/-- The cooldown decrement maps the counter to its predecessor (zero stays
zero) and leaves the flag and timer alone. -/
theorem tickCooldown_attackFields (p : PState) :
    attackFields (tickCooldown p) =
      (p.isAttacking, p.attackTimer, p.attackCooldown - 1) := by
  simp only [tickCooldown, attackFields]
  split_ifs with h
  · rfl
  · simp only [Prod.mk.injEq, true_and]; omega

/-- Attack fields after the guard-plus-cooldown prefix of `Player.update`. -/
theorem cooldownPhase_fields (x : PState) :
    attackFields (tickCooldown (ensureActiveSet x)) =
      (x.isAttacking, x.attackTimer, x.attackCooldown - 1) := by
  rcases attackFields_inj (ensureActiveSet_attackFields x) with ⟨h1, h2, h3⟩
  rw [tickCooldown_attackFields, h1, h2, h3]

end W0rm

namespace W0rm

/-- `Player.update` acts on the attack fields exactly as its source reads:
decrement the cooldown, then advance a running attack and end it into
cooldown once the duration is reached; the physics and animation paths leave
the attack fields alone. -/
theorem playerUpdate_attackFields (mode : Mode) (x : PState) :
    attackFields (playerUpdate mode x) =
      (if x.isAttacking = true then
         (if x.attackTimer + 1 ≥ attackDuration then (false, 0, cooldownDuration)
          else (true, x.attackTimer + 1, x.attackCooldown - 1))
       else (x.isAttacking, x.attackTimer, x.attackCooldown - 1)) := by
  rcases attackFields_fields (cooldownPhase_fields x) with ⟨h1, h2, h3⟩
  simp only [playerUpdate]
  rw [h1]
  split_ifs with ha ht
  · simp only [attackAdvance]
    rw [h2, if_pos ht]
    rfl
  · simp only [attackAdvance]
    rw [h2, if_neg ht]
    simp only [attackFields]
    rw [h1, h3, ha]
  · rw [physicsStep_attackFields]; exact cooldownPhase_fields x
  · rw [animStep_attackFields, physicsStep_attackFields]; exact cooldownPhase_fields x
  · exact cooldownPhase_fields x
  · rw [animStep_attackFields]; exact cooldownPhase_fields x

/-- One full player tick acts on the attack fields exactly like the
abstract `attackStep`. -/
theorem playerTick_attackFields (dirLen : Dir → ℕ) (mode : Mode) (e3 : Bool) (k : Keys)
    (m : Bool) (p : PState) :
    attackFields (playerTick dirLen mode e3 k m p) = attackStep m (attackFields p) := by
  rcases attackFields_inj (handleInput_attackFields mode e3 dirLen k p) with ⟨hA, hT, hC⟩
  unfold playerTick
  rw [playerUpdate_attackFields]
  unfold handleMouseAttack
  by_cases hc : m = true ∧ (handleInput mode e3 dirLen k p).isAttacking = false ∧
      (handleInput mode e3 dirLen k p).attackCooldown = 0
  · rw [if_pos hc]
    have hc2 : m = true ∧ p.isAttacking = false ∧ p.attackCooldown = 0 := by
      rwa [hA, hC] at hc
    simp only [startAttack, attackStep, attackFields, hc2.1, hc2.2.1, hc2.2.2, hC]
    simp [attackDuration]
  · rw [if_neg hc]
    have hc2 : ¬ (m = true ∧ p.isAttacking = false ∧ p.attackCooldown = 0) := by
      rwa [hA, hC] at hc
    simp only [attackStep, attackFields, hA, hT, hC]
    rw [if_neg hc2]
    simp only []
    split_ifs with h1 h2 <;> simp [h1]

/-- C10 helper: the state of the attack fields after `attackStep` satisfies
the invariant, moves along the Idle-Attacking-Cooldown cycle, and can enter
the attacking state only from idle with zero cooldown. -/
theorem attackStep_cycle (m : Bool) (a : Bool × ℕ × ℕ)
    (h1 : a.1 = true → a.2.2 = 0 ∧ a.2.1 + 1 ≤ attackDuration)
    (h2 : a.1 = false → a.2.1 = 0)
    (h3 : a.2.2 ≤ cooldownDuration) :
    (((attackStep m a).1 = true →
        (attackStep m a).2.2 = 0 ∧ (attackStep m a).2.1 + 1 ≤ attackDuration) ∧
     ((attackStep m a).1 = false → (attackStep m a).2.1 = 0) ∧
     (attackStep m a).2.2 ≤ cooldownDuration) ∧
    ((attackStep m a).1 = true → a.1 = true ∨ (a.1 = false ∧ a.2.2 = 0)) := by
  simp only [attackStep, attackDuration, cooldownDuration] at *
  split_ifs <;> simp_all <;> omega

end W0rm

namespace W0rm

/-- C10: the player's attack state machine always follows the cycle Idle →
Attacking → Cooldown → Idle.  Under the attack invariant, one full player
tick (input, mouse attack, update) preserves the invariant — so Attacking
never outlives the fixed attack duration and the cooldown counter never
exceeds the fixed cooldown length — the phase moves only along the cycle,
and the tick ends in Attacking only if it already was attacking or was idle
with zero cooldown: a new attack can never start while Attacking or while
the cooldown counter is nonzero. -/
theorem C10_attack_state_machine (dirLen : Dir → ℕ) (mode : Mode) (e3 : Bool)
    (k : Keys) (m : Bool) (p : PState) (hInv : AttackInv p) :
    AttackInv (playerTick dirLen mode e3 k m p) ∧
    phaseStep (phaseOf p) (phaseOf (playerTick dirLen mode e3 k m p)) ∧
    ((playerTick dirLen mode e3 k m p).isAttacking = true →
      p.isAttacking = true ∨ (p.isAttacking = false ∧ p.attackCooldown = 0)) := by
  obtain ⟨i1, i2, i3⟩ := hInv
  have hstep := playerTick_attackFields dirLen mode e3 k m p
  simp only [attackFields] at hstep
  have hA := congrArg Prod.fst hstep
  have hT := congrArg (fun z => z.2.1) hstep
  have hC := congrArg (fun z => z.2.2) hstep
  simp only at hA hT hC
  obtain ⟨⟨j1, j2, j3⟩, j4⟩ :=
    attackStep_cycle m (p.isAttacking, p.attackTimer, p.attackCooldown) i1 i2 i3
  refine ⟨⟨?_, ?_, ?_⟩, ?_, ?_⟩
  · intro h; rw [hA] at h; rw [hT, hC]; exact j1 h
  · intro h; rw [hA] at h; rw [hT]; exact j2 h
  · rw [hC]; exact j3
  · unfold phaseOf
    rw [hA, hC]
    simp only [attackStep, attackDuration, cooldownDuration]
    split_ifs <;> simp_all [phaseStep]
  · intro h; rw [hA] at h; exact j4 h

set_option maxRecDepth 8000 in
/-- C10 witness: the cycle theorem applied to the concrete idle player
`pBase` with the mouse button pressed. -/
theorem C10_attack_state_machine_witness :
    AttackInv (playerTick dirLenFour Mode.default false keysNone true pBase) ∧
    phaseStep (phaseOf pBase)
      (phaseOf (playerTick dirLenFour Mode.default false keysNone true pBase)) ∧
    ((playerTick dirLenFour Mode.default false keysNone true pBase).isAttacking = true →
      pBase.isAttacking = true ∨
      (pBase.isAttacking = false ∧ pBase.attackCooldown = 0)) :=
  C10_attack_state_machine dirLenFour Mode.default false keysNone true pBase
    (by unfold AttackInv; with_unfolding_all decide)

set_option maxRecDepth 8000 in
/-- C1: the claim that physics integration still applies on every Attacking
tick fails on the code.  `Player.update`'s attacking branch returns before
the side-view physics block (the `return` at line 806, whose comment says
only normal animation is skipped), so gravity, velocity integration,
horizontal-impulse application and decay, bound clamping and ground-contact
detection are all skipped while attacking.  On the attacking mid-air state
`pAttacking` a full tick leaves position and both velocities untouched,
while the identical state with the attack flag cleared (`pCoasting`)
integrates gravity, position and impulse decay normally. -/
theorem C1_attacking_tick_skips_physics :
    (playerTick dirLenFour Mode.default false keysNone false pAttacking).isAttacking = true ∧
    (playerTick dirLenFour Mode.default false keysNone false pAttacking).posY
      = pAttacking.posY ∧
    (playerTick dirLenFour Mode.default false keysNone false pAttacking).vy
      = pAttacking.vy ∧
    (playerTick dirLenFour Mode.default false keysNone false pAttacking).vx
      = pAttacking.vx ∧
    (playerTick dirLenFour Mode.default false keysNone false pAttacking).posX
      = pAttacking.posX ∧
    (playerTick dirLenFour Mode.default false keysNone false pCoasting).posY
      = pCoasting.posY + 6 ∧
    (playerTick dirLenFour Mode.default false keysNone false pCoasting).vy
      = pCoasting.vy + 1 ∧
    (playerTick dirLenFour Mode.default false keysNone false pCoasting).vx
      = pCoasting.vx * (17/20) := by
  with_unfolding_all decide

set_option maxRecDepth 8000 in
/-- C7 counterexample: on a wall jump off the left wall the code sets the
vertical velocity to `int(-16 * 0.9) = -14`, which is not exactly 90% of the
jump-strength constant (that would be `-14.4`); the horizontal impulse is
`+10` as specified. -/
theorem C7_wall_jump_truncation_cex :
    (handleInput Mode.default false dirLenFour keysUp pWall).vy = -14 ∧
    ¬ ((handleInput Mode.default false dirLenFour keysUp pWall).vy
        = (9/10) * jumpStrength) ∧
    (handleInput Mode.default false dirLenFour keysUp pWall).vx = 10 := by
  with_unfolding_all decide

end W0rm

namespace W0rm

/-- C7 (amended): on an edge-triggered up-press while airborne and in wall
contact (2D mode, no flight mode), `Player.handle_input` sets the vertical
velocity to the Python `int` truncation of 90% of the jump strength — the
value `-14`, not the exact 90% value `-14.4` — and adds a horizontal impulse
of fixed magnitude 10 whose sign is opposite the wall side: rightward off the
left wall, leftward off the right wall. -/
theorem C7_wall_jump_amended (mode : Mode) (dirLen : Dir → ℕ) (k : Keys) (p : PState)
    (side : WallSide) (hfly : mode ≠ Mode.math) (hside : p.sideView = true)
    (hup : (k.keyW || k.keySpace) = true) (hprev : p.prevUpPressed = false)
    (hg : p.onGround = false) (hw : p.onWall = true) (hdir : p.wallDir = some side) :
    (handleInput mode false dirLen k p).vy = wallJumpVy ∧
    wallJumpVy = -14 ∧
    (side = WallSide.left → (handleInput mode false dirLen k p).vx = 10) ∧
    (side = WallSide.right → (handleInput mode false dirLen k p).vx = -10) := by
  have hup2 : upOf false k = true := by simpa [upOf] using hup
  have hd : depthMove false k p = p := by simp [depthMove]
  have hmPrev : (moveLR k.keyA k.keyD (storePressed k.keyA k.keyD true p)).prevUpPressed
      = false := by rw [moveLR_eq]; exact hprev
  have hmG : (moveLR k.keyA k.keyD (storePressed k.keyA k.keyD true p)).onGround
      = false := by rw [moveLR_eq]; exact hg
  have hmW : (moveLR k.keyA k.keyD (storePressed k.keyA k.keyD true p)).onWall
      = true := by rw [moveLR_eq]; exact hw
  have hmD : (moveLR k.keyA k.keyD (storePressed k.keyA k.keyD true p)).wallDir
      = some side := by rw [moveLR_eq]; exact hdir
  have hsp : (storePressed k.keyA k.keyD true p).sideView = true := hside
  have hj1 : (jumpOrFly mode true (moveLR k.keyA k.keyD (storePressed k.keyA k.keyD true p))).vy
      = wallJumpVy := by
    cases side with
    | left => simp [jumpOrFly, hmPrev, hmG, hmW, hmD, hfly]
    | right => simp [jumpOrFly, hmPrev, hmG, hmW, hmD, hfly]
  have hj2 : side = WallSide.left →
      (jumpOrFly mode true (moveLR k.keyA k.keyD (storePressed k.keyA k.keyD true p))).vx
      = 10 := by
    intro hs
    rw [hs] at hmD
    simp [jumpOrFly, hmPrev, hmG, hmW, hmD, hfly]
  have hj3 : side = WallSide.right →
      (jumpOrFly mode true (moveLR k.keyA k.keyD (storePressed k.keyA k.keyD true p))).vx
      = -10 := by
    intro hs
    rw [hs] at hmD
    simp [jumpOrFly, hmPrev, hmG, hmW, hmD, hfly]
  have hbody : handleInput mode false dirLen k p =
      { frameSelect dirLen k.keyA k.keyD true
          (jumpOrFly mode true (moveLR k.keyA k.keyD (storePressed k.keyA k.keyD true p))) with
        anyDirPressed := (k.keyA || k.keyD || true), prevUpPressed := true } := by
    simp only [handleInput, hup2, hd]
    rw [if_pos hsp]
  refine ⟨?_, by with_unfolding_all decide, ?_, ?_⟩
  · rw [hbody, frameSelect_eq]
    exact hj1
  · intro hs
    rw [hbody, frameSelect_eq]
    exact hj2 hs
  · intro hs
    rw [hbody, frameSelect_eq]
    exact hj3 hs

set_option maxRecDepth 8000 in
/-- C7 witness: the amended wall-jump theorem applied to the concrete
airborne left-wall-contact state `pWall` with W pressed. -/
theorem C7_wall_jump_amended_witness :
    (handleInput Mode.default false dirLenFour keysUp pWall).vy = wallJumpVy ∧
    wallJumpVy = -14 ∧
    (WallSide.left = WallSide.left →
      (handleInput Mode.default false dirLenFour keysUp pWall).vx = 10) ∧
    (WallSide.left = WallSide.right →
      (handleInput Mode.default false dirLenFour keysUp pWall).vx = -10) :=
  C7_wall_jump_amended Mode.default dirLenFour keysUp pWall WallSide.left
    (by decide) (by with_unfolding_all decide) (by with_unfolding_all decide)
    (by with_unfolding_all decide) (by with_unfolding_all decide)
    (by with_unfolding_all decide) (by with_unfolding_all decide)

end W0rm

namespace W0rm

/-- Horizontal movement keeps the player's center within the field bounds
relaxed by one walk step: each step is guarded on the current position. -/
theorem moveLR_posX_bounds (l r : Bool) (p : PState)
    (h1 : (p.rectW : ℚ) / 2 - pspeed < p.posX)
    (h2 : p.posX < screenW - (p.rectW : ℚ) / 2 + pspeed) :
    (p.rectW : ℚ) / 2 - pspeed < (moveLR l r p).posX ∧
    (moveLR l r p).posX < screenW - (p.rectW : ℚ) / 2 + pspeed := by
  simp only [moveLR, pspeed, screenW] at *
  split_ifs with hL hR hR <;> constructor <;>
    simp only at * <;> linarith [hL, hR, h1, h2]

/-- The clamp of `Player.update` leaves the horizontal center inside the
exact field bounds whenever the sprite fits in the field at all. -/
theorem clampX_bounds (p : PState) (hsize : (p.rectW : ℚ) ≤ screenW) :
    (p.rectW : ℚ) / 2 ≤ (clampX p).posX ∧
    (clampX p).posX ≤ screenW - (p.rectW : ℚ) / 2 := by
  simp only [clampX, screenW] at *
  split_ifs with h1 h2 <;> constructor <;> simp only at * <;> linarith

/-- After the ground check, a set grounded flag means the player was snapped
exactly onto the floor line. -/
theorem groundCheck_ground (p : PState) :
    (groundCheck p).onGround = true → (groundCheck p).posY = matrixH - (p.rectH : ℚ) / 2 := by
  simp only [groundCheck]
  split_ifs <;> intro h <;> simp_all

/-- The jump/fly block never sets the grounded flag. -/
theorem jumpOrFly_ground (mode : Mode) (u : Bool) (p : PState) :
    (jumpOrFly mode u p).onGround = true → p.onGround = true := by
  simp only [jumpOrFly]
  split_ifs <;> intro h <;>
    first
      | exact h
      | simp at h
      | (cases hwd : p.wallDir with
         | none => simpa [hwd] using h
         | some side => cases side <;> simpa [hwd] using h)

/-- In side view, `Player.handle_input` decomposes into the side-view
pipeline: depth move, pressed-state store, left/right movement, jump/fly,
frame selection, and the pressed-state epilogue. -/
theorem handleInput_side_decomp (mode : Mode) (e3 : Bool) (dirLen : Dir → ℕ) (k : Keys)
    (p : PState) (hside : p.sideView = true) :
    handleInput mode e3 dirLen k p =
      { frameSelect dirLen k.keyA k.keyD (upOf e3 k)
          (jumpOrFly mode (upOf e3 k)
            (moveLR k.keyA k.keyD
              (storePressed k.keyA k.keyD (upOf e3 k) (depthMove e3 k p)))) with
        anyDirPressed := (k.keyA || k.keyD || upOf e3 k),
        prevUpPressed := upOf e3 k } := by
  simp only [handleInput]
  rw [if_pos
    (show (storePressed k.keyA k.keyD (upOf e3 k) (depthMove e3 k p)).sideView = true by
      rw [depthMove_eq]; exact hside)]

/-- In side view, `Player.handle_input` does not move the player
vertically, keeps the view mode and the rect size, and never sets the
grounded flag; its horizontal effect keeps the center within the bounds
relaxed by one walk step. -/
theorem handleInput_posInv (mode : Mode) (e3 : Bool) (dirLen : Dir → ℕ) (k : Keys)
    (p : PState) (hside : p.sideView = true)
    (h1 : (p.rectW : ℚ) / 2 - pspeed < p.posX)
    (h2 : p.posX < screenW - (p.rectW : ℚ) / 2 + pspeed) :
    (handleInput mode e3 dirLen k p).sideView = true ∧
    (handleInput mode e3 dirLen k p).posY = p.posY ∧
    (handleInput mode e3 dirLen k p).rectW = p.rectW ∧
    (handleInput mode e3 dirLen k p).rectH = p.rectH ∧
    ((handleInput mode e3 dirLen k p).onGround = true → p.onGround = true) ∧
    ((p.rectW : ℚ) / 2 - pspeed < (handleInput mode e3 dirLen k p).posX ∧
      (handleInput mode e3 dirLen k p).posX < screenW - (p.rectW : ℚ) / 2 + pspeed) := by
  have hSPx : (storePressed k.keyA k.keyD (upOf e3 k) (depthMove e3 k p)).posX = p.posX := by
    rw [depthMove_eq]; rfl
  have hSPw : (storePressed k.keyA k.keyD (upOf e3 k) (depthMove e3 k p)).rectW = p.rectW := by
    rw [depthMove_eq]; rfl
  have hb := moveLR_posX_bounds k.keyA k.keyD
      (storePressed k.keyA k.keyD (upOf e3 k) (depthMove e3 k p))
      (by rw [hSPx, hSPw]; exact h1) (by rw [hSPx, hSPw]; exact h2)
  rw [hSPw] at hb
  rw [handleInput_side_decomp mode e3 dirLen k p hside]
  refine ⟨?_, ?_, ?_, ?_, ?_, ?_⟩
  · rw [frameSelect_eq, jumpOrFly_eq, moveLR_eq, depthMove_eq]; exact hside
  · rw [frameSelect_eq, jumpOrFly_eq, moveLR_eq, depthMove_eq]; rfl
  · rw [frameSelect_eq, jumpOrFly_eq, moveLR_eq, depthMove_eq]; rfl
  · rw [frameSelect_eq, jumpOrFly_eq, moveLR_eq, depthMove_eq]; rfl
  · intro h
    rw [frameSelect_eq] at h
    have h3 := jumpOrFly_ground mode (upOf e3 k) _ h
    rw [moveLR_eq, depthMove_eq] at h3
    exact h3
  · rw [frameSelect_eq, jumpOrFly_eq]
    exact hb

end W0rm

namespace W0rm

/-- The side-view physics block clamps the horizontal center into the exact
field bounds, preserves the view mode and rect size, and snaps the player
exactly onto the floor line whenever it sets the grounded flag. -/
theorem physicsStep_posInv (mode : Mode) (r : PState) (hsize : (r.rectW : ℚ) ≤ screenW) :
    ((r.rectW : ℚ) / 2 ≤ (physicsStep mode r).posX ∧
      (physicsStep mode r).posX ≤ screenW - (r.rectW : ℚ) / 2) ∧
    (physicsStep mode r).sideView = r.sideView ∧
    (physicsStep mode r).rectW = r.rectW ∧
    (physicsStep mode r).rectH = r.rectH ∧
    ((physicsStep mode r).onGround = true →
      (physicsStep mode r).posY = matrixH - (r.rectH : ℚ) / 2) := by
  have c1w : (horizImpulse r).rectW = r.rectW := by rw [horizImpulse_eq]
  have c1h : (horizImpulse r).rectH = r.rectH := by rw [horizImpulse_eq]
  have c1s : (horizImpulse r).sideView = r.sideView := by rw [horizImpulse_eq]
  have c2w : (clampX (horizImpulse r)).rectW = (horizImpulse r).rectW := by rw [clampX_eq]
  have c2h : (clampX (horizImpulse r)).rectH = (horizImpulse r).rectH := by rw [clampX_eq]
  have c2s : (clampX (horizImpulse r)).sideView = (horizImpulse r).sideView := by
    rw [clampX_eq]
  have c3x : (wallSlide (clampX (horizImpulse r))).posX = (clampX (horizImpulse r)).posX := by
    rw [wallSlide_eq]
  have c3w : (wallSlide (clampX (horizImpulse r))).rectW = (clampX (horizImpulse r)).rectW := by
    rw [wallSlide_eq]
  have c3h : (wallSlide (clampX (horizImpulse r))).rectH = (clampX (horizImpulse r)).rectH := by
    rw [wallSlide_eq]
  have c3s : (wallSlide (clampX (horizImpulse r))).sideView
      = (clampX (horizImpulse r)).sideView := by rw [wallSlide_eq]
  have c4x : (gravityIntegrate mode (wallSlide (clampX (horizImpulse r)))).posX
      = (wallSlide (clampX (horizImpulse r))).posX := by rw [gravityIntegrate_eq]
  have c4w : (gravityIntegrate mode (wallSlide (clampX (horizImpulse r)))).rectW
      = (wallSlide (clampX (horizImpulse r))).rectW := by rw [gravityIntegrate_eq]
  have c4h : (gravityIntegrate mode (wallSlide (clampX (horizImpulse r)))).rectH
      = (wallSlide (clampX (horizImpulse r))).rectH := by rw [gravityIntegrate_eq]
  have c4s : (gravityIntegrate mode (wallSlide (clampX (horizImpulse r)))).sideView
      = (wallSlide (clampX (horizImpulse r))).sideView := by rw [gravityIntegrate_eq]
  have c5x : (groundCheck (gravityIntegrate mode (wallSlide (clampX (horizImpulse r))))).posX
      = (gravityIntegrate mode (wallSlide (clampX (horizImpulse r)))).posX := by
    rw [groundCheck_eq]
  have c5w : (groundCheck (gravityIntegrate mode (wallSlide (clampX (horizImpulse r))))).rectW
      = (gravityIntegrate mode (wallSlide (clampX (horizImpulse r)))).rectW := by
    rw [groundCheck_eq]
  have c5h : (groundCheck (gravityIntegrate mode (wallSlide (clampX (horizImpulse r))))).rectH
      = (gravityIntegrate mode (wallSlide (clampX (horizImpulse r)))).rectH := by
    rw [groundCheck_eq]
  have c5s : (groundCheck (gravityIntegrate mode (wallSlide (clampX (horizImpulse r))))).sideView
      = (gravityIntegrate mode (wallSlide (clampX (horizImpulse r)))).sideView := by
    rw [groundCheck_eq]
  have hcb := clampX_bounds (horizImpulse r) (by rw [c1w]; exact hsize)
  rw [c1w] at hcb
  have hXh : (gravityIntegrate mode (wallSlide (clampX (horizImpulse r)))).rectH = r.rectH := by
    rw [c4h, c3h, c2h, c1h]
  refine ⟨⟨?_, ?_⟩, ?_, ?_, ?_, ?_⟩
  · show (r.rectW : ℚ) / 2 ≤
      (groundCheck (gravityIntegrate mode (wallSlide (clampX (horizImpulse r))))).posX
    rw [c5x, c4x, c3x]; exact hcb.1
  · show (groundCheck (gravityIntegrate mode (wallSlide (clampX (horizImpulse r))))).posX
      ≤ screenW - (r.rectW : ℚ) / 2
    rw [c5x, c4x, c3x]; exact hcb.2
  · show (groundCheck (gravityIntegrate mode (wallSlide (clampX (horizImpulse r))))).sideView
      = r.sideView
    rw [c5s, c4s, c3s, c2s, c1s]
  · show (groundCheck (gravityIntegrate mode (wallSlide (clampX (horizImpulse r))))).rectW
      = r.rectW
    rw [c5w, c4w, c3w, c2w, c1w]
  · show (groundCheck (gravityIntegrate mode (wallSlide (clampX (horizImpulse r))))).rectH
      = r.rectH
    rw [c5h, hXh]
  · show (groundCheck (gravityIntegrate mode (wallSlide (clampX (horizImpulse r))))).onGround
        = true →
      (groundCheck (gravityIntegrate mode (wallSlide (clampX (horizImpulse r))))).posY
        = matrixH - (r.rectH : ℚ) / 2
    intro h
    have h2 := groundCheck_ground _ h
    rw [hXh] at h2
    exact h2

set_option maxRecDepth 2000 in
/-- C4 (amended): the exact horizontal bound of the claim holds at the end
of every tick on which the player was not attacking when `Player.update`
ran; on attacking ticks the update's early return skips the clamp, and the
center can stray below half-width (or above its mirror) by strictly less
than one walk step, but never further.  The grounded part of the claim holds
as stated: whenever the grounded flag is set the player's lower edge sits
exactly on the floor line.  Together: the relaxed positional invariant
`PlayerInv` is preserved by every tick, and every non-attacking tick ends
inside the exact bounds. -/
theorem C4_position_invariant_amended (dirLen : Dir → ℕ) (mode : Mode) (e3 : Bool)
    (k : Keys) (m : Bool) (p : PState)
    (hsize : (p.rectW : ℚ) ≤ screenW) (hInv : PlayerInv p) :
    PlayerInv (playerTick dirLen mode e3 k m p) ∧
    ((handleMouseAttack m (handleInput mode e3 dirLen k p)).isAttacking = false →
      (p.rectW : ℚ) / 2 ≤ (playerTick dirLen mode e3 k m p).posX ∧
      (playerTick dirLen mode e3 k m p).posX ≤ screenW - (p.rectW : ℚ) / 2) := by
  obtain ⟨hS, ⟨hx1, hx2⟩, hG⟩ := hInv
  obtain ⟨qS, qY, qW, qH, qG, qB1, qB2⟩ := handleInput_posInv mode e3 dirLen k p hS hx1 hx2
  set q := handleInput mode e3 dirLen k p with hqdef
  have RpX : (tickCooldown (ensureActiveSet (handleMouseAttack m q))).posX = q.posX := by
    rw [tickCooldown_eq, ensureActiveSet_eq, handleMouseAttack_eq]
  have RpY : (tickCooldown (ensureActiveSet (handleMouseAttack m q))).posY = q.posY := by
    rw [tickCooldown_eq, ensureActiveSet_eq, handleMouseAttack_eq]
  have RS : (tickCooldown (ensureActiveSet (handleMouseAttack m q))).sideView = q.sideView := by
    rw [tickCooldown_eq, ensureActiveSet_eq, handleMouseAttack_eq]
  have ROG : (tickCooldown (ensureActiveSet (handleMouseAttack m q))).onGround = q.onGround := by
    rw [tickCooldown_eq, ensureActiveSet_eq, handleMouseAttack_eq]
  have RW : (tickCooldown (ensureActiveSet (handleMouseAttack m q))).rectW = q.rectW := by
    rw [tickCooldown_eq, ensureActiveSet_eq, handleMouseAttack_eq]
  have RH : (tickCooldown (ensureActiveSet (handleMouseAttack m q))).rectH = q.rectH := by
    rw [tickCooldown_eq, ensureActiveSet_eq, handleMouseAttack_eq]
  have RIs : (tickCooldown (ensureActiveSet (handleMouseAttack m q))).isAttacking
      = (handleMouseAttack m q).isAttacking := by
    rw [tickCooldown_eq, ensureActiveSet_eq]
  have hsizeR : ((tickCooldown (ensureActiveSet (handleMouseAttack m q))).rectW : ℚ)
      ≤ screenW := by rw [RW, qW]; exact hsize
  simp only [playerTick, playerUpdate]
  rw [← hqdef]
  split_ifs with hAtt hJmp
  · -- attacking tick: the update returns before physics
    have aX : (attackAdvance (tickCooldown (ensureActiveSet (handleMouseAttack m q)))).posX
        = q.posX := by rw [attackAdvance_eq]; exact RpX
    have aY : (attackAdvance (tickCooldown (ensureActiveSet (handleMouseAttack m q)))).posY
        = q.posY := by rw [attackAdvance_eq]; exact RpY
    have aS : (attackAdvance (tickCooldown (ensureActiveSet (handleMouseAttack m q)))).sideView
        = q.sideView := by rw [attackAdvance_eq]; exact RS
    have aG : (attackAdvance (tickCooldown (ensureActiveSet (handleMouseAttack m q)))).onGround
        = q.onGround := by rw [attackAdvance_eq]; exact ROG
    have aW : (attackAdvance (tickCooldown (ensureActiveSet (handleMouseAttack m q)))).rectW
        = q.rectW := by rw [attackAdvance_eq]; exact RW
    have aH : (attackAdvance (tickCooldown (ensureActiveSet (handleMouseAttack m q)))).rectH
        = q.rectH := by rw [attackAdvance_eq]; exact RH
    constructor
    · refine ⟨by rw [aS]; exact qS, ⟨?_, ?_⟩, ?_⟩
      · rw [aX, aW, qW]; exact qB1
      · rw [aX, aW, qW]; exact qB2
      · intro h
        rw [aG] at h
        rw [aY, qY, aH, qH]
        exact hG (qG h)
    · intro h2
      rw [RIs] at hAtt
      rw [h2] at hAtt
      simp at hAtt
  · -- non-attacking tick ending on the jump frame: physics ran, clamp holds
    obtain ⟨⟨b1, b2⟩, pS, pW, pH, pGnd⟩ :=
      physicsStep_posInv mode (tickCooldown (ensureActiveSet (handleMouseAttack m q))) hsizeR
    rw [RW, qW] at b1 b2
    constructor
    · refine ⟨by rw [pS, RS]; exact qS, ⟨?_, ?_⟩, ?_⟩
      · rw [pW, RW, qW]
        simp only [pspeed]
        linarith
      · rw [pW, RW, qW]
        simp only [pspeed]
        linarith
      · intro h
        rw [RH, qH] at pGnd
        rw [pH, RH, qH]
        exact pGnd h
    · intro h2
      exact ⟨b1, b2⟩
  · -- non-attacking tick with animation advance: same physics facts
    obtain ⟨⟨b1, b2⟩, pS, pW, pH, pGnd⟩ :=
      physicsStep_posInv mode (tickCooldown (ensureActiveSet (handleMouseAttack m q))) hsizeR
    have nX : (animStep (physicsStep mode
        (tickCooldown (ensureActiveSet (handleMouseAttack m q))))).posX
        = (physicsStep mode (tickCooldown (ensureActiveSet (handleMouseAttack m q)))).posX := by
      rw [animStep_eq]
    have nY : (animStep (physicsStep mode
        (tickCooldown (ensureActiveSet (handleMouseAttack m q))))).posY
        = (physicsStep mode (tickCooldown (ensureActiveSet (handleMouseAttack m q)))).posY := by
      rw [animStep_eq]
    have nS : (animStep (physicsStep mode
        (tickCooldown (ensureActiveSet (handleMouseAttack m q))))).sideView
        = (physicsStep mode (tickCooldown (ensureActiveSet (handleMouseAttack m q)))).sideView := by
      rw [animStep_eq]
    have nG : (animStep (physicsStep mode
        (tickCooldown (ensureActiveSet (handleMouseAttack m q))))).onGround
        = (physicsStep mode (tickCooldown (ensureActiveSet (handleMouseAttack m q)))).onGround := by
      rw [animStep_eq]
    have nW : (animStep (physicsStep mode
        (tickCooldown (ensureActiveSet (handleMouseAttack m q))))).rectW
        = (physicsStep mode (tickCooldown (ensureActiveSet (handleMouseAttack m q)))).rectW := by
      rw [animStep_eq]
    have nH : (animStep (physicsStep mode
        (tickCooldown (ensureActiveSet (handleMouseAttack m q))))).rectH
        = (physicsStep mode (tickCooldown (ensureActiveSet (handleMouseAttack m q)))).rectH := by
      rw [animStep_eq]
    rw [RW, qW] at b1 b2
    constructor
    · refine ⟨by rw [nS, pS, RS]; exact qS, ⟨?_, ?_⟩, ?_⟩
      · rw [nX, nW, pW, RW, qW]
        simp only [pspeed]
        linarith
      · rw [nX, nW, pW, RW, qW]
        simp only [pspeed]
        linarith
      · intro h
        rw [nG] at h
        rw [RH, qH] at pGnd
        rw [nY, nH, pH, RH, qH]
        exact pGnd h
    · intro h2
      rw [nX]
      exact ⟨b1, b2⟩
  · exact absurd (RS.trans qS) hJmp
  · exact absurd (RS.trans qS) hJmp

end W0rm

namespace W0rm

set_option maxRecDepth 8000 in
/-- C4 counterexample: from the in-bounds attacking state `pEdge` (center at
26, half-width 24) a tick with A held moves the center to 20, strictly below
the half-width: the claimed exact horizontal bound fails on attacking ticks
because the update's early return skips the clamp. -/
theorem C4_bounds_cex :
    pEdge.posX = 26 ∧ ((pEdge.rectW : ℚ) / 2) = 24 ∧
    (pEdge.rectW : ℚ) / 2 ≤ pEdge.posX ∧
    pEdge.posX ≤ screenW - (pEdge.rectW : ℚ) / 2 ∧
    (playerTick dirLenFour Mode.default false keysLeft false pEdge).posX = 20 ∧
    (playerTick dirLenFour Mode.default false keysLeft false pEdge).posX
      < (pEdge.rectW : ℚ) / 2 := by
  with_unfolding_all decide

set_option maxRecDepth 8000 in
/-- C4 witness: the amended positional invariant applied to the concrete
grounded state `pBase` with A held. -/
theorem C4_position_invariant_amended_witness :
    PlayerInv (playerTick dirLenFour Mode.default false keysLeft false pBase) ∧
    ((handleMouseAttack false (handleInput Mode.default false dirLenFour keysLeft pBase)).isAttacking
        = false →
      (pBase.rectW : ℚ) / 2 ≤ (playerTick dirLenFour Mode.default false keysLeft false pBase).posX ∧
      (playerTick dirLenFour Mode.default false keysLeft false pBase).posX
        ≤ screenW - (pBase.rectW : ℚ) / 2) :=
  C4_position_invariant_amended dirLenFour Mode.default false keysLeft false pBase
    (by unfold pBase screenW; with_unfolding_all decide)
    (by unfold PlayerInv; with_unfolding_all decide)

end W0rm

namespace W0rm

/-- The sprite-update prefix changes no round-director flag. -/
theorem updateWorld_const (dirLen : Dir → ℕ) (k : Keys) (m : Bool) (g : Game) :
    (updateWorld dirLen k m g).health = g.health ∧
    (updateWorld dirLen k m g).state = g.state ∧
    (updateWorld dirLen k m g).pillOffered = g.pillOffered ∧
    (updateWorld dirLen k m g).enable3d = g.enable3d ∧
    (updateWorld dirLen k m g).dropSpeed = g.dropSpeed :=
  ⟨rfl, rfl, rfl, rfl, rfl⟩

/-- Below the 999 threshold the pill-offer phase is the identity. -/
theorem pillOfferPhase_of_lt (g : Game) (hs : g.score < 999) : pillOfferPhase g = g := by
  unfold pillOfferPhase
  rw [if_neg]
  rintro ⟨_, h999⟩
  omega

/-- The spawn phase touches only the spawn timer and the entity pools of
collectibles and enemies. -/
theorem spawnPhase_const (inp : SpawnInput) (g : Game) :
    (spawnPhase inp g).state = g.state ∧ (spawnPhase inp g).health = g.health ∧
    (spawnPhase inp g).pills = g.pills ∧ (spawnPhase inp g).pillOffered = g.pillOffered ∧
    (spawnPhase inp g).enable3d = g.enable3d ∧ (spawnPhase inp g).dropSpeed = g.dropSpeed ∧
    (spawnPhase inp g).player = g.player := by
  rcases inp with ⟨chars, enemy⟩
  simp only [spawnPhase, spawnCharacters]
  cases enemy <;> split_ifs <;> exact ⟨rfl, rfl, rfl, rfl, rfl, rfl, rfl⟩

/-- The collectible pass touches only the collectible pool, the score and
the key counter. -/
theorem collectPhase_const (g : Game) :
    (collectPhase g).state = g.state ∧ (collectPhase g).health = g.health ∧
    (collectPhase g).pills = g.pills ∧ (collectPhase g).pillOffered = g.pillOffered ∧
    (collectPhase g).enable3d = g.enable3d ∧ (collectPhase g).dropSpeed = g.dropSpeed ∧
    (collectPhase g).player = g.player :=
  ⟨rfl, rfl, rfl, rfl, rfl, rfl, rfl⟩

/-- One enemy-contact resolution leaves the state alone or flips it to game
over. -/
theorem enemyContact_state (sq : ℚ → ℚ) (p : PState) (e : EState) (h : ℤ) (st : GMode) :
    (enemyContact sq p e h st).2.2 = st ∨
    (enemyContact sq p e h st).2.2 = GMode.gameOver := by
  simp only [enemyContact]
  split_ifs <;> first | exact Or.inl rfl | exact Or.inr rfl

/-- Folding enemy contacts leaves the state alone or flips it to game
over. -/
theorem contactFold_state (sq : ℚ → ℚ) (p : PState) (es : List EState)
    (acc : List EState × ℤ × GMode) :
    (es.foldl (contactFold sq p) acc).2.2 = acc.2.2 ∨
    (es.foldl (contactFold sq p) acc).2.2 = GMode.gameOver := by
  induction es generalizing acc with
  | nil => exact Or.inl rfl
  | cons e es ih =>
    simp only [List.foldl_cons]
    rcases ih (contactFold sq p acc e) with h | h
    · rw [h]
      exact enemyContact_state sq p e acc.2.1 acc.2.2
    · exact Or.inr h

/-- The combat phase leaves the state alone or flips it to game over, and
touches neither the flags nor the speed nor the player. -/
theorem combatPhase_const (sq : ℚ → ℚ) (g : Game) :
    ((combatPhase sq g).state = g.state ∨ (combatPhase sq g).state = GMode.gameOver) ∧
    (combatPhase sq g).pills = g.pills ∧ (combatPhase sq g).pillOffered = g.pillOffered ∧
    (combatPhase sq g).enable3d = g.enable3d ∧ (combatPhase sq g).dropSpeed = g.dropSpeed ∧
    (combatPhase sq g).player = g.player :=
  ⟨contactFold_state sq g.player g.enemies ([], g.health, g.state), rfl, rfl, rfl, rfl, rfl⟩

/-- The ranged pass touches only the enemy pool. -/
theorem rangedAttackPhase_const (g : Game) :
    (rangedAttackPhase g).state = g.state ∧ (rangedAttackPhase g).health = g.health ∧
    (rangedAttackPhase g).pills = g.pills ∧ (rangedAttackPhase g).pillOffered = g.pillOffered ∧
    (rangedAttackPhase g).enable3d = g.enable3d ∧
    (rangedAttackPhase g).dropSpeed = g.dropSpeed ∧
    (rangedAttackPhase g).player = g.player := by
  unfold rangedAttackPhase
  split_ifs <;> exact ⟨rfl, rfl, rfl, rfl, rfl, rfl, rfl⟩

/-- The pill-pickup pass touches neither the state nor the health nor the
speed, and with no pill present it is inert on the pill pool and the 3D
flag. -/
theorem pillPickupPhase_const (g : Game) :
    (pillPickupPhase g).state = g.state ∧ (pillPickupPhase g).health = g.health ∧
    (pillPickupPhase g).pillOffered = g.pillOffered ∧
    (pillPickupPhase g).dropSpeed = g.dropSpeed ∧
    (g.pills = [] →
      (pillPickupPhase g).pills = [] ∧ (pillPickupPhase g).enable3d = g.enable3d) := by
  unfold pillPickupPhase
  refine ⟨rfl, rfl, rfl, rfl, ?_⟩
  intro hp
  rw [hp]
  simp

/-- The difficulty ramp touches only the tick counter and the drop speed,
and the new speed is the old one or its ramped value. -/
theorem difficultyPhase_const (g : Game) :
    (difficultyPhase g).state = g.state ∧ (difficultyPhase g).health = g.health ∧
    (difficultyPhase g).pills = g.pills ∧ (difficultyPhase g).pillOffered = g.pillOffered ∧
    (difficultyPhase g).enable3d = g.enable3d ∧
    ((difficultyPhase g).dropSpeed = g.dropSpeed ∨
      (difficultyPhase g).dropSpeed = rampSpeed g.dropSpeed) := by
  refine ⟨rfl, rfl, rfl, rfl, rfl, ?_⟩
  simp only [difficultyPhase]
  split_ifs
  · exact Or.inr rfl
  · exact Or.inl rfl

/-- The final health check: health is unchanged, a nonpositive health forces
game over, and the state is otherwise unchanged; nothing else moves. -/
theorem healthCheckPhase_const (g : Game) :
    (healthCheckPhase g).health = g.health ∧
    ((healthCheckPhase g).health ≤ 0 → (healthCheckPhase g).state = GMode.gameOver) ∧
    ((healthCheckPhase g).state = g.state ∨ (healthCheckPhase g).state = GMode.gameOver) ∧
    (healthCheckPhase g).pills = g.pills ∧ (healthCheckPhase g).pillOffered = g.pillOffered ∧
    (healthCheckPhase g).enable3d = g.enable3d ∧
    (healthCheckPhase g).dropSpeed = g.dropSpeed := by
  unfold healthCheckPhase
  split_ifs with h
  · exact ⟨rfl, fun _ => rfl, Or.inr rfl, rfl, rfl, rfl, rfl⟩
  · exact ⟨rfl, fun hc => absurd hc h, Or.inl rfl, rfl, rfl, rfl, rfl⟩

end W0rm

namespace W0rm

/-- The sprite-update prefix keeps the state. -/
theorem updateWorld_state (dirLen : Dir → ℕ) (k : Keys) (m : Bool) (g : Game) :
    (updateWorld dirLen k m g).state = g.state := rfl

/-- The sprite-update prefix adds exactly the destroyed-enemy award to the
score. -/
theorem updateWorld_score (dirLen : Dir → ℕ) (k : Keys) (m : Bool) (g : Game) :
    (updateWorld dirLen k m g).score = g.score + enemyAward g.enemies := rfl

/-- The sprite-update prefix only updates the existing pills in place. -/
theorem updateWorld_pills (dirLen : Dir → ℕ) (k : Keys) (m : Bool) (g : Game) :
    (updateWorld dirLen k m g).pills = g.pills.filterMap pillUpdate := rfl

/-- The sprite-update prefix keeps the offered flag. -/
theorem updateWorld_pillOffered (dirLen : Dir → ℕ) (k : Keys) (m : Bool) (g : Game) :
    (updateWorld dirLen k m g).pillOffered = g.pillOffered := rfl

/-- The sprite-update prefix keeps the 3D flag. -/
theorem updateWorld_enable3d (dirLen : Dir → ℕ) (k : Keys) (m : Bool) (g : Game) :
    (updateWorld dirLen k m g).enable3d = g.enable3d := rfl

/-- The sprite-update prefix keeps the drop speed. -/
theorem updateWorld_dropSpeed (dirLen : Dir → ℕ) (k : Keys) (m : Bool) (g : Game) :
    (updateWorld dirLen k m g).dropSpeed = g.dropSpeed := rfl

/-- The pill offer keeps the drop speed. -/
theorem pillOfferPhase_dropSpeed (g : Game) :
    (pillOfferPhase g).dropSpeed = g.dropSpeed := by
  simp only [pillOfferPhase, spawnPills]
  split_ifs <;> rfl

/-- The spawn phase keeps the state. -/
theorem spawnPhase_state (inp : SpawnInput) (g : Game) :
    (spawnPhase inp g).state = g.state := (spawnPhase_const inp g).1

/-- The spawn phase keeps the pills. -/
theorem spawnPhase_pills (inp : SpawnInput) (g : Game) :
    (spawnPhase inp g).pills = g.pills := (spawnPhase_const inp g).2.2.1

/-- The spawn phase keeps the offered flag. -/
theorem spawnPhase_pillOffered (inp : SpawnInput) (g : Game) :
    (spawnPhase inp g).pillOffered = g.pillOffered := (spawnPhase_const inp g).2.2.2.1

/-- The spawn phase keeps the 3D flag. -/
theorem spawnPhase_enable3d (inp : SpawnInput) (g : Game) :
    (spawnPhase inp g).enable3d = g.enable3d := (spawnPhase_const inp g).2.2.2.2.1

/-- The spawn phase keeps the drop speed. -/
theorem spawnPhase_dropSpeed (inp : SpawnInput) (g : Game) :
    (spawnPhase inp g).dropSpeed = g.dropSpeed := (spawnPhase_const inp g).2.2.2.2.2.1

/-- The collectible pass keeps the state. -/
theorem collectPhase_state (g : Game) : (collectPhase g).state = g.state := rfl

/-- The collectible pass keeps the pills. -/
theorem collectPhase_pills (g : Game) : (collectPhase g).pills = g.pills := rfl

/-- The collectible pass keeps the offered flag. -/
theorem collectPhase_pillOffered (g : Game) :
    (collectPhase g).pillOffered = g.pillOffered := rfl

/-- The collectible pass keeps the 3D flag. -/
theorem collectPhase_enable3d (g : Game) : (collectPhase g).enable3d = g.enable3d := rfl

/-- The collectible pass keeps the drop speed. -/
theorem collectPhase_dropSpeed (g : Game) : (collectPhase g).dropSpeed = g.dropSpeed := rfl

/-- The combat pass keeps the pills. -/
theorem combatPhase_pills (sq : ℚ → ℚ) (g : Game) :
    (combatPhase sq g).pills = g.pills := rfl

/-- The combat pass keeps the offered flag. -/
theorem combatPhase_pillOffered (sq : ℚ → ℚ) (g : Game) :
    (combatPhase sq g).pillOffered = g.pillOffered := rfl

/-- The combat pass keeps the 3D flag. -/
theorem combatPhase_enable3d (sq : ℚ → ℚ) (g : Game) :
    (combatPhase sq g).enable3d = g.enable3d := rfl

/-- The combat pass keeps the drop speed. -/
theorem combatPhase_dropSpeed (sq : ℚ → ℚ) (g : Game) :
    (combatPhase sq g).dropSpeed = g.dropSpeed := rfl

/-- The ranged pass keeps the state. -/
theorem rangedAttackPhase_state (g : Game) :
    (rangedAttackPhase g).state = g.state := (rangedAttackPhase_const g).1

/-- The ranged pass keeps the pills. -/
theorem rangedAttackPhase_pills (g : Game) :
    (rangedAttackPhase g).pills = g.pills := (rangedAttackPhase_const g).2.2.1

/-- The ranged pass keeps the offered flag. -/
theorem rangedAttackPhase_pillOffered (g : Game) :
    (rangedAttackPhase g).pillOffered = g.pillOffered := (rangedAttackPhase_const g).2.2.2.1

/-- The ranged pass keeps the 3D flag. -/
theorem rangedAttackPhase_enable3d (g : Game) :
    (rangedAttackPhase g).enable3d = g.enable3d := (rangedAttackPhase_const g).2.2.2.2.1

/-- The ranged pass keeps the drop speed. -/
theorem rangedAttackPhase_dropSpeed (g : Game) :
    (rangedAttackPhase g).dropSpeed = g.dropSpeed := (rangedAttackPhase_const g).2.2.2.2.2.1

/-- The pill-pickup pass keeps the state. -/
theorem pillPickupPhase_state (g : Game) : (pillPickupPhase g).state = g.state := rfl

/-- The pill-pickup pass keeps the offered flag. -/
theorem pillPickupPhase_pillOffered (g : Game) :
    (pillPickupPhase g).pillOffered = g.pillOffered := rfl

/-- The pill-pickup pass keeps the drop speed. -/
theorem pillPickupPhase_dropSpeed (g : Game) :
    (pillPickupPhase g).dropSpeed = g.dropSpeed := rfl

/-- The difficulty ramp keeps the state. -/
theorem difficultyPhase_state (g : Game) : (difficultyPhase g).state = g.state := rfl

/-- The difficulty ramp keeps the pills. -/
theorem difficultyPhase_pills (g : Game) : (difficultyPhase g).pills = g.pills := rfl

/-- The difficulty ramp keeps the offered flag. -/
theorem difficultyPhase_pillOffered (g : Game) :
    (difficultyPhase g).pillOffered = g.pillOffered := rfl

/-- The difficulty ramp keeps the 3D flag. -/
theorem difficultyPhase_enable3d (g : Game) :
    (difficultyPhase g).enable3d = g.enable3d := rfl

/-- The health check keeps the pills. -/
theorem healthCheckPhase_pills (g : Game) :
    (healthCheckPhase g).pills = g.pills := (healthCheckPhase_const g).2.2.2.1

/-- The health check keeps the offered flag. -/
theorem healthCheckPhase_pillOffered (g : Game) :
    (healthCheckPhase g).pillOffered = g.pillOffered := (healthCheckPhase_const g).2.2.2.2.1

/-- The health check keeps the 3D flag. -/
theorem healthCheckPhase_enable3d (g : Game) :
    (healthCheckPhase g).enable3d = g.enable3d := (healthCheckPhase_const g).2.2.2.2.2.1

/-- The health check keeps the drop speed. -/
theorem healthCheckPhase_dropSpeed (g : Game) :
    (healthCheckPhase g).dropSpeed = g.dropSpeed := (healthCheckPhase_const g).2.2.2.2.2.2

/-- The tail of the update after the pill-pickup pass is inert on an empty
pill pool and on the 3D flag. -/
theorem pillPickup_tail_const (g : Game) (hp : g.pills = []) :
    (healthCheckPhase (difficultyPhase (pillPickupPhase g))).pills = [] ∧
    (healthCheckPhase (difficultyPhase (pillPickupPhase g))).enable3d = g.enable3d := by
  obtain ⟨h1, h2⟩ := (pillPickupPhase_const g).2.2.2.2 hp
  rw [healthCheckPhase_pills, difficultyPhase_pills, healthCheckPhase_enable3d,
    difficultyPhase_enable3d]
  exact ⟨h1, h2⟩

end W0rm

namespace W0rm

/-- C6: for an enemy overlapping the player's bounds, the contact leaves the
health unchanged exactly when the player is attacking with its attack timer
inside the parry window; a parry applies knockback of force 40 away from the
player and keeps the state, while a missed parry applies knockback of force
30 and costs exactly 10 health. -/
theorem C6_parry_classification (sq : ℚ → ℚ) (p : PState) (e : EState) (health : ℤ)
    (st : GMode)
    (hcol : collide (playerRect p) (topleftRect e.posX e.posY e.rectW e.rectH) = true) :
    ((enemyContact sq p e health st).2.1 = health ↔
      p.isAttacking = true ∧ p.attackTimer ≤ parryWindow) ∧
    (p.isAttacking = true ∧ p.attackTimer ≤ parryWindow →
      (enemyContact sq p e health st).1 =
        applyKnockback (contactDir sq p e).1 (contactDir sq p e).2 40 e ∧
      (enemyContact sq p e health st).2.2 = st) ∧
    (¬(p.isAttacking = true ∧ p.attackTimer ≤ parryWindow) →
      (enemyContact sq p e health st).2.1 = health - 10 ∧
      (enemyContact sq p e health st).1 =
        applyKnockback (contactDir sq p e).1 (contactDir sq p e).2 30 e) := by
  simp only [enemyContact]
  rw [if_pos hcol]
  by_cases hp : p.isAttacking = true ∧ p.attackTimer ≤ parryWindow
  · rw [if_pos hp]
    exact ⟨iff_of_true rfl hp, fun _ => ⟨rfl, rfl⟩, fun hn => absurd hp hn⟩
  · rw [if_neg hp]
    refine ⟨iff_of_false ?_ hp, fun ha => absurd ha hp, fun _ => ⟨rfl, rfl⟩⟩
    intro hq
    have hq2 : health - 10 = health := hq
    omega

/-- C6 witness: with the attack timer exactly at the window the overlap at
`eTouch` is a parry (health stays 100); one tick past the window it is a miss
(health drops to 90). -/
theorem C6_parry_classification_witness :
    (enemyContact sqOne pParry3 eTouch 100 GMode.playing).2.1 = 100 ∧
    (enemyContact sqOne pMiss4 eTouch 100 GMode.playing).2.1 = 90 :=
  ⟨(C6_parry_classification sqOne pParry3 eTouch 100 GMode.playing
      (by with_unfolding_all decide)).1.mpr (by with_unfolding_all decide),
   (((C6_parry_classification sqOne pMiss4 eTouch 100 GMode.playing
      (by with_unfolding_all decide)).2.2 (by with_unfolding_all decide)).1).trans
      (by decide)⟩

/-- C3: if one Playing tick drives the player's positive health to zero or
below, the state at the end of that tick is game over. -/
theorem C3_health_gameover (sq : ℚ → ℚ) (dirLen : Dir → ℕ) (k : Keys) (m : Bool)
    (inp : SpawnInput) (g : Game) (hpl : g.state = GMode.playing)
    (hh : 0 < g.health)
    (hres : (gameUpdate sq dirLen k m inp g).health ≤ 0) :
    (gameUpdate sq dirLen k m inp g).state = GMode.gameOver := by
  simp only [gameUpdate] at hres ⊢
  rw [if_neg (fun hne => hne hpl)] at hres ⊢
  by_cases h200 : 200 ≤ (updateWorld dirLen k m g).score
  · rw [if_pos h200] at hres
    have hg : g.health ≤ 0 := hres
    omega
  · rw [if_neg h200] at hres ⊢
    exact (healthCheckPhase_const _).2.1 hres

/-- C3 witness: at 10 health, the missed parry on the touching enemy drops
health to 0 and the very same tick ends in game over. -/
theorem C3_health_gameover_witness :
    (gameUpdate sqOne dirLenFour keysNone false noSpawn gLowHealth).state =
      GMode.gameOver :=
  C3_health_gameover sqOne dirLenFour keysNone false noSpawn gLowHealth rfl
    (by with_unfolding_all decide) (by set_option maxRecDepth 16000 in with_unfolding_all decide)

end W0rm

namespace W0rm

/-- C2: the pill machinery is unreachable from the per-tick update — the
round-complete early return at score 200 shadows the pill offer at score 999,
so one tick never sets the offered flag, never creates a pill when none
exists, and never changes the 3D flag when none exists. -/
theorem C2_pill_unreachable (sq : ℚ → ℚ) (dirLen : Dir → ℕ) (k : Keys) (m : Bool)
    (inp : SpawnInput) (g : Game) :
    (gameUpdate sq dirLen k m inp g).pillOffered = g.pillOffered ∧
    (g.pills = [] →
      (gameUpdate sq dirLen k m inp g).pills = [] ∧
      (gameUpdate sq dirLen k m inp g).enable3d = g.enable3d) := by
  simp only [gameUpdate]
  split_ifs with hst h200
  · exact ⟨rfl, fun hp => ⟨hp, rfl⟩⟩
  · refine ⟨rfl, fun hp => ⟨?_, rfl⟩⟩
    show g.pills.filterMap pillUpdate = []
    rw [hp]
    rfl
  · have hlt : (updateWorld dirLen k m g).score < 999 := by omega
    rw [pillOfferPhase_of_lt _ hlt]
    constructor
    · rw [healthCheckPhase_pillOffered, difficultyPhase_pillOffered,
        pillPickupPhase_pillOffered, rangedAttackPhase_pillOffered,
        combatPhase_pillOffered, collectPhase_pillOffered, spawnPhase_pillOffered,
        updateWorld_pillOffered]
    · intro hp
      have hR : (rangedAttackPhase (combatPhase sq (collectPhase (spawnPhase inp
          (updateWorld dirLen k m g))))).pills = [] := by
        rw [rangedAttackPhase_pills, combatPhase_pills, collectPhase_pills,
          spawnPhase_pills, updateWorld_pills, hp]
        rfl
      obtain ⟨h1, h2⟩ := pillPickup_tail_const _ hR
      refine ⟨h1, ?_⟩
      rw [h2, rangedAttackPhase_enable3d, combatPhase_enable3d, collectPhase_enable3d,
        spawnPhase_enable3d, updateWorld_enable3d]

/-- C2 witness: a fresh session tick keeps the offered flag false, the pill
pool empty and the 3D flag off. -/
theorem C2_pill_unreachable_witness :
    (gameUpdate sqOne dirLenFour keysNone false noSpawn gBase).pillOffered = false ∧
    (gameUpdate sqOne dirLenFour keysNone false noSpawn gBase).pills = [] ∧
    (gameUpdate sqOne dirLenFour keysNone false noSpawn gBase).enable3d = false :=
  ⟨(C2_pill_unreachable sqOne dirLenFour keysNone false noSpawn gBase).1,
   ((C2_pill_unreachable sqOne dirLenFour keysNone false noSpawn gBase).2 rfl).1,
   ((C2_pill_unreachable sqOne dirLenFour keysNone false noSpawn gBase).2 rfl).2⟩

/-- C5 counterexample: the score first reaches 200 through a collectible
pickup at tick T, yet the state is still Playing at the end of tick T; the
round completes only one tick later. -/
theorem C5_round_complete_cex :
    (gameUpdate sqOne dirLenFour keysNone false noSpawn gAlmostDone).score = 200 ∧
    (gameUpdate sqOne dirLenFour keysNone false noSpawn gAlmostDone).state =
      GMode.playing ∧
    (gameUpdate sqOne dirLenFour keysNone false noSpawn
      (gameUpdate sqOne dirLenFour keysNone false noSpawn gAlmostDone)).state =
      GMode.roundComplete := by
  set_option maxRecDepth 16000 in with_unfolding_all decide

/-- C5 amended: on a Playing tick the state flips to RoundComplete exactly
when the score at the start of the tick plus this tick's destroyed-enemy
award reaches 200 — collectible pickups of the same tick do not count until
the next tick. -/
theorem C5_round_complete_amended (sq : ℚ → ℚ) (dirLen : Dir → ℕ) (k : Keys) (m : Bool)
    (inp : SpawnInput) (g : Game) (hpl : g.state = GMode.playing) :
    (gameUpdate sq dirLen k m inp g).state = GMode.roundComplete ↔
      200 ≤ g.score + enemyAward g.enemies := by
  simp only [gameUpdate]
  rw [if_neg (fun hne => hne hpl)]
  by_cases h200 : 200 ≤ (updateWorld dirLen k m g).score
  · rw [if_pos h200]
    exact iff_of_true rfl h200
  · rw [if_neg h200]
    have hlt : (updateWorld dirLen k m g).score < 999 := by omega
    refine iff_of_false ?_ (fun hr => h200 hr)
    intro hfin
    rcases (healthCheckPhase_const _).2.2.1 with hst | hst
    · have h1 := hst.symm.trans hfin
      rw [difficultyPhase_state, pillPickupPhase_state, rangedAttackPhase_state] at h1
      rcases (combatPhase_const sq _).1 with hc | hc
      · have h2 := hc.symm.trans h1
        rw [collectPhase_state, spawnPhase_state, pillOfferPhase_of_lt _ hlt] at h2
        have h3 : g.state = GMode.roundComplete := h2
        rw [hpl] at h3
        exact absurd h3 (by decide)
      · exact absurd (hc.symm.trans h1) (by decide)
    · exact absurd (hst.symm.trans hfin) (by decide)

/-- C5 witness: at 190 points, destroying the last enemy this tick awards 10
points and the round completes on this very tick. -/
theorem C5_round_complete_amended_witness :
    (gameUpdate sqOne dirLenFour keysNone false noSpawn gAwardDone).state =
      GMode.roundComplete :=
  (C5_round_complete_amended sqOne dirLenFour keysNone false noSpawn gAwardDone
    rfl).mpr (by set_option maxRecDepth 8000 in with_unfolding_all decide)

end W0rm

namespace W0rm

/-- C8 counterexample: a round transition pushes the drop speed past the ramp
cap (here from 10 to 11), and the next multiple-of-300 tick then LOWERS it
back to 10 — the drop speed is not monotone across ticks and round
transitions. -/
theorem C8_monotone_cex :
    (startNextRound gAtCap).dropSpeed = 11 ∧
    gAboveCap.dropSpeed = 11 ∧
    (gameUpdate sqOne dirLenFour keysNone false noSpawn gAboveCap).dropSpeed = 10 := by
  set_option maxRecDepth 16000 in with_unfolding_all decide

/-- C8 amended: a tick either keeps the drop speed or applies the ramp, so it
is non-decreasing from any speed at most the cap 10; round transitions always
add 1 (uncapped); but the ramp clamps any speed above the cap back down to
exactly 10, which is where monotonicity fails. -/
theorem C8_drop_speed_amended (sq : ℚ → ℚ) (dirLen : Dir → ℕ) (k : Keys) (m : Bool)
    (inp : SpawnInput) (g : Game) :
    ((gameUpdate sq dirLen k m inp g).dropSpeed = g.dropSpeed ∨
      (gameUpdate sq dirLen k m inp g).dropSpeed = rampSpeed g.dropSpeed) ∧
    (g.dropSpeed ≤ 10 → g.dropSpeed ≤ (gameUpdate sq dirLen k m inp g).dropSpeed) ∧
    (startNextRound g).dropSpeed = g.dropSpeed + 1 ∧
    (10 < g.dropSpeed → rampSpeed g.dropSpeed = 10) := by
  have hor : (gameUpdate sq dirLen k m inp g).dropSpeed = g.dropSpeed ∨
      (gameUpdate sq dirLen k m inp g).dropSpeed = rampSpeed g.dropSpeed := by
    simp only [gameUpdate]
    split_ifs with hst h200
    · exact Or.inl rfl
    · exact Or.inl rfl
    · rw [healthCheckPhase_dropSpeed]
      rcases (difficultyPhase_const _).2.2.2.2.2 with h | h
      · rw [h, pillPickupPhase_dropSpeed, rangedAttackPhase_dropSpeed,
          combatPhase_dropSpeed, collectPhase_dropSpeed, spawnPhase_dropSpeed,
          pillOfferPhase_dropSpeed, updateWorld_dropSpeed]
        exact Or.inl rfl
      · rw [h, pillPickupPhase_dropSpeed, rangedAttackPhase_dropSpeed,
          combatPhase_dropSpeed, collectPhase_dropSpeed, spawnPhase_dropSpeed,
          pillOfferPhase_dropSpeed, updateWorld_dropSpeed]
        exact Or.inr rfl
  refine ⟨hor, ?_, rfl, ?_⟩
  · intro hd
    rcases hor with h | h
    · exact h.ge
    · rw [h]
      simp only [rampSpeed]
      exact le_min (by linarith) hd
  · intro hgt
    simp only [rampSpeed]
    exact min_eq_right (by linarith)

/-- C8 witness: at the cap, a tick never lowers the drop speed. -/
theorem C8_drop_speed_amended_witness :
    gAtCap.dropSpeed ≤ 10 ∧
    gAtCap.dropSpeed ≤
      (gameUpdate sqOne dirLenFour keysNone false noSpawn gAtCap).dropSpeed :=
  ⟨by with_unfolding_all decide,
   (C8_drop_speed_amended sqOne dirLenFour keysNone false noSpawn gAtCap).2.1
     (by with_unfolding_all decide)⟩

/-- C9 counterexample: an enemy whose position coincides with the player's
center still overlaps the player, so the contact applies a knockback of
magnitude zero; the enemy survives its next update with its knockback
magnitude unchanged (zero), so the magnitude never strictly decreases. -/
theorem C9_knockback_decay_cex :
    collide (playerRect pBase) (topleftRect eCoincident.posX eCoincident.posY
      eCoincident.rectW eCoincident.rectH) = true ∧
    (enemyContact sqOne pBase eCoincident 100 GMode.playing).1.knockedBack = true ∧
    kmagSq (enemyContact sqOne pBase eCoincident 100 GMode.playing).1 = 0 ∧
    (enemyUpdate (enemyContact sqOne pBase eCoincident 100 GMode.playing).1).isSome
      = true ∧
    kmagSq ((enemyUpdate (enemyContact sqOne pBase eCoincident 100
        GMode.playing).1).getD
        (enemyContact sqOne pBase eCoincident 100 GMode.playing).1) =
      kmagSq (enemyContact sqOne pBase eCoincident 100 GMode.playing).1 := by
  set_option maxRecDepth 8000 in with_unfolding_all decide

/-- C9 amended: the strict geometric decay does hold for every knocked-back
enemy whose knockback velocity is nonzero — one surviving update multiplies
the squared magnitude by the squared decay factor, strictly decreasing it and
keeping it nonzero. -/
theorem C9_knockback_decay_amended (e e2 : EState) (hk : e.knockedBack = true)
    (hnz : kmagSq e ≠ 0) (hu : enemyUpdate e = some e2) :
    kmagSq e2 = knockbackDecay ^ 2 * kmagSq e ∧
    kmagSq e2 < kmagSq e ∧
    e2.knockedBack = true ∧ kmagSq e2 ≠ 0 := by
  simp only [enemyUpdate] at hu
  rw [if_pos hk] at hu
  split_ifs at hu with hb
  rw [Option.some.injEq] at hu
  have heq : kmagSq e2 = knockbackDecay ^ 2 * kmagSq e := by
    rw [← hu]
    simp only [kmagSq]
    ring
  have hkb : e2.knockedBack = true := by
    rw [← hu]
    exact hk
  have h0 : 0 < kmagSq e := by
    rcases lt_or_eq_of_le (by unfold kmagSq; positivity : (0:ℚ) ≤ kmagSq e) with h | h
    · exact h
    · exact absurd h.symm hnz
  have hd2 : knockbackDecay ^ 2 = (361/400 : ℚ) := by norm_num [knockbackDecay]
  refine ⟨heq, ?_, hkb, ?_⟩
  · rw [heq, hd2]
    linarith
  · rw [heq, hd2]
    intro hz
    rcases mul_eq_zero.mp hz with h | h
    · norm_num at h
    · exact hnz h

set_option maxRecDepth 8000 in
/-- C9 witness: a knocked-back enemy moving at velocity 4 decays to 19/5 on
its next update, strictly lowering its knockback magnitude. -/
theorem C9_knockback_decay_amended_witness :
    kmagSq eKnockNext < kmagSq eKnock :=
  (C9_knockback_decay_amended eKnock eKnockNext (by with_unfolding_all decide)
    (by with_unfolding_all decide) (by with_unfolding_all decide)).2.1

end W0rm
